import Mathlib

/-!
Verification development for the HLSL Translator front-end
(files `src/HLSLParser.cpp`, `src/ASTPrinter.cpp`, `inc/HT/Logger.h`).

The parser is shallowly embedded as a family of fuel-indexed functions over
an explicit token stream.  The embedding follows `HLSLParser.cpp` function by
function; C++ raw pointers used for the two non-owning references
(`VarDecl::declStmntRef` and `VarType::symbolRef`) are modelled by allocation
identifiers (`Nat`) handed out by a counter threaded through the parser state,
mirroring the distinct heap addresses produced by `Make<T>()`.

Exceptions (`HLSLParser::Error` throws `std::runtime_error`) are modelled by
the `Except` monad; a separate `fuelOut` error marks exhaustion of the fuel
that makes the recursive descent structural.
-/

set_option maxHeartbeats 2000000

namespace HT

/-! ## Source positions and tokens -/

/-- Source position: pair of 1-based line and column (`SourcePos`). -/
structure SourcePos where
  line : Nat
  column : Nat
deriving DecidableEq, Repr

/-- Rendering of a source position as `"L:C"` (`SourcePos::ToString`). -/
def SourcePos.toStr (p : SourcePos) : String :=
  toString p.line ++ ":" ++ toString p.column

/-- Token kind discriminants, as enumerated by the scanner (`Tokens`). -/
inductive Tokens
  | Ident
  | BoolLiteral
  | IntLiteral
  | FloatLiteral
  | ScalarType
  | VectorType
  | MatrixType
  | Texture
  | Sampler
  | UniformBuffer
  | Void
  | Struct
  | Register
  | PackOffset
  | If
  | Else
  | Switch
  | Case
  | Default
  | For
  | While
  | Do
  | Return
  | CtrlTransfer
  | InputModifier
  | StorageModifier
  | TypeModifier
  | AssignOp
  | UnaryOp
  | BinaryOp
  | TernaryOp
  | LBracket
  | RBracket
  | LCurly
  | RCurly
  | LParen
  | RParen
  | Comma
  | Semicolon
  | Colon
  | Dot
  | Directive
  | EndOfStream
deriving DecidableEq, Repr

/-- A scanner token: kind, exact spelling and start position (`Token`). -/
structure Token where
  type : Tokens
  spell : String
  pos : SourcePos
deriving DecidableEq, Repr

/-! ## AST model

Node families from `HLSLTree.h` as used by `HLSLParser.cpp` and
`ASTPrinter.cpp`.  Every node stores its `pos`.  `VarDeclStmnt` and
`Structure` additionally store the allocation identifier modelling their heap
address, because `VarDecl::declStmntRef` and `VarType::symbolRef` are raw
pointers to nodes of exactly these two classes. -/

/-- Field placement inside a constant-buffer register (`PackOffset`). -/
structure PackOffset where
  pos : SourcePos
  registerName : String
  vectorComponent : String
deriving DecidableEq, Repr

/-- One `: semantic`, `: register(...)` or `: packoffset(...)` slot
(`VarSemantic`). -/
structure VarSemantic where
  pos : SourcePos
  semantic : String
  registerName : String
  packOffset : Option PackOffset
deriving DecidableEq, Repr

/-- Identifier plus optional register of a texture/sampler declaration
(`BufferDeclIdent`). -/
structure BufferDeclIdent where
  pos : SourcePos
  ident : String
  registerName : String
deriving DecidableEq, Repr

mutual

/-- Expression nodes (`Expr` hierarchy). -/
inductive Expr
  | listExpr (pos : SourcePos) (firstExpr nextExpr : Expr)
  | literalExpr (pos : SourcePos) (literal : String)
  | typeNameExpr (pos : SourcePos) (typeName : String)
  | ternaryExpr (pos : SourcePos) (condition ifExpr elseExpr : Expr)
  | binaryExpr (pos : SourcePos) (op : String) (lhsExpr rhsExpr : Expr)
  | unaryExpr (pos : SourcePos) (op : String) (expr : Expr)
  | postUnaryExpr (pos : SourcePos) (op : String) (expr : Expr)
  | functionCallExpr (pos : SourcePos) (call : FunctionCall)
  | bracketExpr (pos : SourcePos) (expr : Expr)
  | castExpr (pos : SourcePos) (typeExpr expr : Expr)
  | varAccessExpr (pos : SourcePos) (varIdent : VarIdent) (assignOp : String)
      (assignExpr : Option Expr)
  | initializerExpr (pos : SourcePos) (exprs : List Expr)

/-- Chained variable identifier (`VarIdent`). -/
inductive VarIdent
  | mk (pos : SourcePos) (ident : String) (arrayIndices : List Expr)
      (next : Option VarIdent)

/-- Callee identifier plus argument list (`FunctionCall`). -/
inductive FunctionCall
  | mk (pos : SourcePos) (name : VarIdent) (arguments : List Expr)

/-- Single declarator (`VarDecl`); `declStmntRef` is the non-owning
back-reference to the enclosing `VarDeclStmnt`, modelled by its allocation
identifier (`none` models a null pointer). -/
inductive VarDecl
  | mk (pos : SourcePos) (name : String) (arrayDims : List Expr)
      (semantics : List VarSemantic) (initializer : Option Expr)
      (declStmntRef : Option Nat)

/-- Declaration type (`VarType`); `symbolRef` is the non-owning reference to
the `Structure` of an inline struct type, modelled by its allocation
identifier. -/
inductive VarType
  | mk (pos : SourcePos) (baseType : String) (structType : Option Structure)
      (symbolRef : Option Nat)

/-- Structure type (`Structure`); `id` models its heap address. -/
inductive Structure
  | mk (pos : SourcePos) (id : Nat) (name : String)
      (members : List VarDeclStmnt)

/-- Variable declaration statement (`VarDeclStmnt`); `id` models its heap
address, the target of `VarDecl::declStmntRef`. -/
inductive VarDeclStmnt
  | mk (pos : SourcePos) (id : Nat) (inputModifier : String)
      (storageModifiers typeModifiers : List String) (varType : VarType)
      (varDecls : List VarDecl)

/-- Statement nodes (`Stmnt` hierarchy). -/
inductive Stmnt
  | nullStmnt (pos : SourcePos)
  | directiveStmnt (pos : SourcePos) (line : String)
  | codeBlockStmnt (pos : SourcePos) (codeBlock : CodeBlock)
  | forLoopStmnt (pos : SourcePos) (attribs : List FunctionCall)
      (initSmnt : Stmnt) (condition iteration : Option Expr)
      (bodyStmnt : Stmnt)
  | whileLoopStmnt (pos : SourcePos) (attribs : List FunctionCall)
      (condition : Expr) (bodyStmnt : Stmnt)
  | doWhileLoopStmnt (pos : SourcePos) (attribs : List FunctionCall)
      (bodyStmnt : Stmnt) (condition : Expr)
  | ifStmnt (pos : SourcePos) (attribs : List FunctionCall) (condition : Expr)
      (bodyStmnt : Stmnt) (elseStmnt : Option ElseStmnt)
  | switchStmnt (pos : SourcePos) (attribs : List FunctionCall)
      (selector : Expr) (cases : List SwitchCase)
  | varDeclStmnt (decl : VarDeclStmnt)
  | assignStmnt (pos : SourcePos) (varIdent : VarIdent) (op : String)
      (expr : Expr)
  | exprStmnt (pos : SourcePos) (expr : Expr)
  | functionCallStmnt (pos : SourcePos) (call : FunctionCall)
  | returnStmnt (pos : SourcePos) (expr : Option Expr)
  | structDeclStmnt (pos : SourcePos) (struc : Structure)
  | ctrlTransferStmnt (pos : SourcePos) (instruction : String)

/-- Else branch (`ElseStmnt`). -/
inductive ElseStmnt
  | mk (pos : SourcePos) (bodyStmnt : Stmnt)

/-- One `case`/`default` section of a switch (`SwitchCase`); `expr = none`
models the `default` label. -/
inductive SwitchCase
  | mk (pos : SourcePos) (expr : Option Expr) (stmnts : List Stmnt)

/-- Braced statement list (`CodeBlock`). -/
inductive CodeBlock
  | mk (pos : SourcePos) (stmnts : List Stmnt)

/-- Global declarations (`GlobalDecl` hierarchy). -/
inductive GlobalDecl
  | functionDecl (pos : SourcePos) (attribs : List FunctionCall)
      (returnType : VarType) (name : String)
      (parameters : List VarDeclStmnt) (semantic : String)
      (codeBlock : Option CodeBlock)
  | uniformBufferDecl (pos : SourcePos) (bufferType name registerName : String)
      (members : List VarDeclStmnt)
  | textureDecl (pos : SourcePos) (textureType colorType : String)
      (names : List BufferDeclIdent)
  | samplerDecl (pos : SourcePos) (samplerType : String)
      (names : List BufferDeclIdent)
  | structDecl (pos : SourcePos) (struc : Structure)
  | directiveDecl (pos : SourcePos) (line : String)

end

/-- AST root (`Program`). -/
structure Program where
  pos : SourcePos
  globalDecls : List GlobalDecl

/-! ### Projections -/

/-- Identifier of a `VarIdent`. -/
def VarIdent.ident : VarIdent → String
  | .mk _ i _ _ => i

/-- Dotted continuation of a `VarIdent`. -/
def VarIdent.next : VarIdent → Option VarIdent
  | .mk _ _ _ n => n

/-- Callee of a `FunctionCall`. -/
def FunctionCall.name : FunctionCall → VarIdent
  | .mk _ n _ => n

/-- Declarator name. -/
def VarDecl.name : VarDecl → String
  | .mk _ n _ _ _ _ => n

/-- Back-reference of a declarator to its enclosing statement. -/
def VarDecl.declStmntRef : VarDecl → Option Nat
  | .mk _ _ _ _ _ r => r

/-- The parser's decoration step `varDecl->declStmntRef = ast.get()`. -/
def VarDecl.setDeclStmntRef : VarDecl → Nat → VarDecl
  | .mk p n a sem i _, r => .mk p n a sem i (some r)

/-- Base type name of a `VarType`. -/
def VarType.baseType : VarType → String
  | .mk _ b _ _ => b

/-- Inline structure type of a `VarType`. -/
def VarType.structType : VarType → Option Structure
  | .mk _ _ st _ => st

/-- Symbol reference of a `VarType`. -/
def VarType.symbolRef : VarType → Option Nat
  | .mk _ _ _ r => r

/-- Allocation identifier of a `Structure` (models its address). -/
def Structure.id : Structure → Nat
  | .mk _ i _ _ => i

/-- Name of a `Structure`. -/
def Structure.name : Structure → String
  | .mk _ _ n _ => n

/-- Allocation identifier of a `VarDeclStmnt` (models its address). -/
def VarDeclStmnt.id : VarDeclStmnt → Nat
  | .mk _ i _ _ _ _ _ => i

/-- Input modifier of a `VarDeclStmnt` (empty string when absent). -/
def VarDeclStmnt.inputModifier : VarDeclStmnt → String
  | .mk _ _ im _ _ _ _ => im

/-- Declared type of a `VarDeclStmnt`. -/
def VarDeclStmnt.varType : VarDeclStmnt → VarType
  | .mk _ _ _ _ _ vt _ => vt

/-- Declarators of a `VarDeclStmnt`. -/
def VarDeclStmnt.varDecls : VarDeclStmnt → List VarDecl
  | .mk _ _ _ _ _ _ ds => ds

/-- Whether a statement is a `FunctionCallStmnt`. -/
def Stmnt.isFunctionCallStmnt : Stmnt → Bool
  | .functionCallStmnt _ _ => true
  | _ => false

/-- Whether a statement is a `VarDeclStmnt`. -/
def Stmnt.isVarDeclStmnt : Stmnt → Bool
  | .varDeclStmnt _ => true
  | _ => false

/-- Callee identifier of a `FunctionCallStmnt`. -/
def Stmnt.callName : Stmnt → Option VarIdent
  | .functionCallStmnt _ c => some c.name
  | _ => none

/-- Attribute list attached to a statement node; only the five statement
kinds with an `attribs` field can carry one. -/
def Stmnt.attribs : Stmnt → List FunctionCall
  | .forLoopStmnt _ a _ _ _ _ => a
  | .whileLoopStmnt _ a _ _ => a
  | .doWhileLoopStmnt _ a _ _ => a
  | .ifStmnt _ a _ _ _ => a
  | .switchStmnt _ a _ _ => a
  | _ => []

/-- Whether an expression is a `TypeNameExpr` (`expr->Type() ==
AST::Types::TypeNameExpr`). -/
def Expr.isTypeNameExpr : Expr → Bool
  | .typeNameExpr _ _ => true
  | _ => false

/-- Whether an expression is a `VarAccessExpr` with null `assignExpr`. -/
def Expr.isVarAccessNoAssign : Expr → Bool
  | .varAccessExpr _ _ _ none => true
  | _ => false

/-! ## Parser state and primitives

The scanner guarantees that `EndOfStream` is emitted exactly once and is
idempotent on further reads; accordingly the head of an exhausted token list
reads as `EndOfStream`.  `nextId` is the allocation counter modelling the
distinct heap addresses produced by `Make<T>()` for `VarDeclStmnt` and
`Structure` nodes. -/

/-- Parse errors: a genuine syntax error (`HLSLParser::Error` throwing
`std::runtime_error`) or exhaustion of the structural fuel. -/
inductive PErr
  | fuelOut
  | parseErr (msg : String)
deriving DecidableEq, Repr

/-- Result monad of the embedded parser. -/
abbrev M (α : Type) := Except PErr α

/-- Parser state: remaining tokens (head is the current token `tkn_`) and
the allocation counter. -/
structure PState where
  toks : List Token
  nextId : Nat
deriving DecidableEq, Repr

/-- The idempotent end-of-stream token. -/
def eosToken : Token := { type := .EndOfStream, spell := "", pos := ⟨0, 0⟩ }

/-- Current token (`tkn_`). -/
def headT (s : PState) : Token := s.toks.headD eosToken

/-- Advance the stream by one token. -/
def advanceSt (s : PState) : PState := { s with toks := s.toks.tail }

/-- Raise a syntax error (`HLSLParser::Error`); the position is rendered from
the current token, standing in for `scanner_.Pos()`. -/
def errMsg (s : PState) (msg : String) : M α :=
  .error (.parseErr ("syntax error (" ++ (headT s).pos.toStr ++ ") : " ++ msg))

/-- Unexpected-token error (`HLSLParser::ErrorUnexpected`). -/
def errUnexpected (s : PState) : M α :=
  errMsg s ("unexpected token '" ++ (headT s).spell ++ "'")

/-- Unexpected-token error with hint (`HLSLParser::ErrorUnexpected(hint)`). -/
def errUnexpectedHint (s : PState) (hint : String) : M α :=
  errMsg s ("unexpected token '" ++ (headT s).spell ++ "' (" ++ hint ++ ")")

/-- Return the current token and advance (`HLSLParser::AcceptIt`). -/
def acceptIt (s : PState) : Token × PState := (headT s, advanceSt s)

/-- Accept a token of the given kind (`HLSLParser::Accept(type)`). -/
def accept (ty : Tokens) (s : PState) : M (Token × PState) :=
  if (headT s).type = ty then .ok (acceptIt s) else errUnexpected s

/-- Accept a token of the given kind and spelling
(`HLSLParser::Accept(type, spell)`). -/
def acceptSpell (ty : Tokens) (sp : String) (s : PState) : M (Token × PState) :=
  if (headT s).type = ty then
    if (headT s).spell = sp then .ok (acceptIt s)
    else errMsg s ("unexpected token spelling '" ++ (headT s).spell
      ++ "' (expected '" ++ sp ++ "')")
  else errUnexpected s

/-- Kind test on the current token (`HLSLParser::Is(type)`). -/
def isTk (s : PState) (ty : Tokens) : Bool := (headT s).type = ty

/-- Kind-and-spelling test on the current token
(`HLSLParser::Is(type, spell)`). -/
def isTkSpell (s : PState) (ty : Tokens) (sp : String) : Bool :=
  (headT s).type = ty && (headT s).spell = sp

/-- Whether the current token is a data type (`HLSLParser::IsDataType`). -/
def isDataType (s : PState) : Bool :=
  isTk s .ScalarType || isTk s .VectorType || isTk s .MatrixType
    || isTk s .Texture || isTk s .Sampler

/-- Whether the current token is a literal (`HLSLParser::IsLiteral`). -/
def isLiteral (s : PState) : Bool :=
  isTk s .BoolLiteral || isTk s .IntLiteral || isTk s .FloatLiteral

/-- Whether a primary expression can start at the current token
(`HLSLParser::IsPrimaryExpr`). -/
def isPrimaryExpr (s : PState) : Bool :=
  isLiteral s || isTk s .Ident || isTk s .UnaryOp
    || isTkSpell s .BinaryOp "-" || isTk s .LBracket

/-- Allocate a fresh identifier, modelling the heap address handed out by
`Make<T>()` for the reference-carrying node classes. -/
def makeId (s : PState) : Nat × PState :=
  (s.nextId, { s with nextId := s.nextId + 1 })

/-- The leading modifier loop of `HLSLParser::ParseParameter`: consume
`InputModifier`, `TypeModifier` and `StorageModifier` tokens, the input
modifier overwriting (`ast->inputModifier = AcceptIt()->Spell()`), the other
two appending. -/
def parseParamModifiers :
    List Token → String → List String → List String →
    String × List String × List String × List Token
  | [], im, tmods, smods => (im, tmods, smods, [])
  | t :: rest, im, tmods, smods =>
    if t.type = .InputModifier then
      parseParamModifiers rest t.spell tmods smods
    else if t.type = .TypeModifier then
      parseParamModifiers rest im (tmods ++ [t.spell]) smods
    else if t.type = .StorageModifier then
      parseParamModifiers rest im tmods (smods ++ [t.spell])
    else
      (im, tmods, smods, t :: rest)

/-- The leading modifier phase of the `while (true)` loop of
`HLSLParser::ParseVarDeclStmnt`: consume `StorageModifier` and `TypeModifier`
tokens until one of the break cases (or the error case) is reached. -/
def parseDeclModifiers :
    List Token → List String → List String →
    List String × List String × List Token
  | [], smods, tmods => (smods, tmods, [])
  | t :: rest, smods, tmods =>
    if t.type = .StorageModifier then
      parseDeclModifiers rest (smods ++ [t.spell]) tmods
    else if t.type = .TypeModifier then
      parseDeclModifiers rest smods (tmods ++ [t.spell])
    else
      (smods, tmods, t :: rest)

/-! ## The recursive-descent parser

One fuel-indexed function per `HLSLParser::Parse*` member.  The inline
`while` loops over lists of sub-nodes become auxiliary `...List`/`...Items`
functions.  Every function consumes one unit of fuel; the original has no
fuel, so every statement proved below about a run that does not end in
`fuelOut` is a statement about the original. -/

mutual

/-- `HLSLParser::ParseProgram`. -/
def parseProgram : Nat → PState → M (Program × PState)
  | 0, _ => .error .fuelOut
  | f+1, s => do
    let pos := (headT s).pos
    let (decls, s) ← parseGlobalDeclList f s
    .ok (⟨pos, decls⟩, s)

/-- The `while (!Is(Tokens::EndOfStream))` loop of `ParseProgram`. -/
def parseGlobalDeclList : Nat → PState → M (List GlobalDecl × PState)
  | 0, _ => .error .fuelOut
  | f+1, s =>
    if (headT s).type = .EndOfStream then .ok ([], s)
    else do
      let (d, s) ← parseGlobalDecl f s
      let (ds, s) ← parseGlobalDeclList f s
      .ok (d :: ds, s)

/-- `HLSLParser::ParseCodeBlock`. -/
def parseCodeBlock : Nat → PState → M (CodeBlock × PState)
  | 0, _ => .error .fuelOut
  | f+1, s => do
    let pos := (headT s).pos
    let (_, s) ← accept .LCurly s
    let (stmnts, s) ← parseStmntList f s
    let (_, s) ← accept .RCurly s
    .ok (.mk pos stmnts, s)

/-- `HLSLParser::ParseBufferDeclIdent`. -/
def parseBufferDeclIdent : Nat → PState → M (BufferDeclIdent × PState)
  | 0, _ => .error .fuelOut
  | f+1, s => do
    let pos := (headT s).pos
    let (itk, s) ← accept .Ident s
    if (headT s).type = .Colon then
      let (reg, s) ← parseRegister f true s
      .ok (⟨pos, itk.spell, reg⟩, s)
    else
      .ok (⟨pos, itk.spell, ""⟩, s)

/-- `HLSLParser::ParseFunctionCall(varIdent)`. -/
def parseFunctionCall :
    Nat → Option VarIdent → PState → M (FunctionCall × PState)
  | 0, _, _ => .error .fuelOut
  | f+1, varIdent, s => do
    let pos := (headT s).pos
    let (vi, s) ←
      match varIdent with
      | some vi => .ok (vi, s)
      | none =>
        if isDataType s then
          let vipos := (headT s).pos
          let (tk, s) := acceptIt s
          .ok (VarIdent.mk vipos tk.spell [] none, s)
        else
          parseVarIdent f s
    let (args, s) ← parseArgumentList f s
    .ok (.mk pos vi args, s)

/-- `HLSLParser::ParseStructure`: the structure name is parsed with
`Accept(Tokens::Ident)`, unconditionally. -/
def parseStructure : Nat → PState → M (Structure × PState)
  | 0, _ => .error .fuelOut
  | f+1, s => do
    let pos := (headT s).pos
    let (sid, s) := makeId s
    let (_, s) ← accept .Struct s
    let (ntk, s) ← accept .Ident s
    let (members, s) ← parseVarDeclStmntList f s
    .ok (.mk pos sid ntk.spell members, s)

/-- `HLSLParser::ParseParameter`: note that the produced `VarDecl` keeps a
null `declStmntRef` (no decoration step here). -/
def parseParameter : Nat → PState → M (VarDeclStmnt × PState)
  | 0, _ => .error .fuelOut
  | f+1, s => do
    let pos := (headT s).pos
    let (vid, s) := makeId s
    let (im, tmods, smods, toks2) := parseParamModifiers s.toks "" [] []
    let s := { s with toks := toks2 }
    let (vt, s) ← parseVarType f false s
    let (vd, s) ← parseVarDecl f s
    .ok (.mk pos vid im smods tmods vt [vd], s)

/-- `HLSLParser::ParseSwitchCase`. -/
def parseSwitchCase : Nat → PState → M (SwitchCase × PState)
  | 0, _ => .error .fuelOut
  | f+1, s => do
    let pos := (headT s).pos
    let (caseExpr, s) ←
      if (headT s).type = .Case then do
        let (_, s) ← accept .Case s
        let (e, s) ← parseExpr f false none s
        .ok (some e, s)
      else do
        let (_, s) ← accept .Default s
        .ok ((none : Option Expr), s)
    let (_, s) ← accept .Colon s
    let (stmnts, s) ← parseSwitchCaseStmntList f s
    .ok (.mk pos caseExpr stmnts, s)

/-- The statement loop of `ParseSwitchCase` (`while` not `case`, `default`
or `}`). -/
def parseSwitchCaseStmntList : Nat → PState → M (List Stmnt × PState)
  | 0, _ => .error .fuelOut
  | f+1, s =>
    if (headT s).type = .Case ∨ (headT s).type = .Default
        ∨ (headT s).type = .RCurly then
      .ok ([], s)
    else do
      let (st, s) ← parseStmnt f s
      let (sts, s) ← parseSwitchCaseStmntList f s
      .ok (st :: sts, s)

/-- `HLSLParser::ParseGlobalDecl`. -/
def parseGlobalDecl : Nat → PState → M (GlobalDecl × PState)
  | 0, _ => .error .fuelOut
  | f+1, s =>
    match (headT s).type with
    | .Sampler => parseSamplerDecl f s
    | .Texture => parseTextureDecl f s
    | .UniformBuffer => parseUniformBufferDecl f s
    | .Struct => parseStructDecl f s
    | .Directive => parseDirectiveDecl f s
    | _ => parseFunctionDecl f s

/-- `HLSLParser::ParseFunctionDecl`. -/
def parseFunctionDecl : Nat → PState → M (GlobalDecl × PState)
  | 0, _ => .error .fuelOut
  | f+1, s => do
    let pos := (headT s).pos
    let (attribs, s) ← parseAttributeList f s
    let (retTy, s) ← parseVarType f true s
    let (ntk, s) ← accept .Ident s
    let (params, s) ← parseParameterList f s
    let (sem, s) ←
      if (headT s).type = .Colon then parseSemantic f s
      else .ok ("", s)
    if (headT s).type = .Semicolon then
      let (_, s) := acceptIt s
      .ok (.functionDecl pos attribs retTy ntk.spell params sem none, s)
    else
      let (cb, s) ← parseCodeBlock f s
      .ok (.functionDecl pos attribs retTy ntk.spell params sem (some cb), s)

/-- `HLSLParser::ParseUniformBufferDecl`. -/
def parseUniformBufferDecl : Nat → PState → M (GlobalDecl × PState)
  | 0, _ => .error .fuelOut
  | f+1, s => do
    let pos := (headT s).pos
    let (btk, s) ← accept .UniformBuffer s
    let (ntk, s) ← accept .Ident s
    let (reg, s) ←
      if (headT s).type = .Colon then parseRegister f true s
      else .ok ("", s)
    let (members, s) ← parseVarDeclStmntList f s
    let (_, s) ← accept .Semicolon s
    .ok (.uniformBufferDecl pos btk.spell ntk.spell reg members, s)

/-- `HLSLParser::ParseTextureDecl`. -/
def parseTextureDecl : Nat → PState → M (GlobalDecl × PState)
  | 0, _ => .error .fuelOut
  | f+1, s => do
    let pos := (headT s).pos
    let (ttk, s) ← accept .Texture s
    let (color, s) ←
      if isTkSpell s .BinaryOp "<" then do
        let (_, s) := acceptIt s
        let (ctk, s) ← accept .ScalarType s
        let (_, s) ← acceptSpell .BinaryOp ">" s
        .ok (ctk.spell, s)
      else .ok ("", s)
    let (names, s) ← parseBufferDeclIdentList f s
    let (_, s) ← accept .Semicolon s
    .ok (.textureDecl pos ttk.spell color names, s)

/-- `HLSLParser::ParseSamplerDecl`. -/
def parseSamplerDecl : Nat → PState → M (GlobalDecl × PState)
  | 0, _ => .error .fuelOut
  | f+1, s => do
    let pos := (headT s).pos
    let (stk, s) ← accept .Sampler s
    let (names, s) ← parseBufferDeclIdentList f s
    let (_, s) ← accept .Semicolon s
    .ok (.samplerDecl pos stk.spell names, s)

/-- `HLSLParser::ParseStructDecl`. -/
def parseStructDecl : Nat → PState → M (GlobalDecl × PState)
  | 0, _ => .error .fuelOut
  | f+1, s => do
    let pos := (headT s).pos
    let (st, s) ← parseStructure f s
    let (_, s) ← accept .Semicolon s
    .ok (.structDecl pos st, s)

/-- `HLSLParser::ParseDirectiveDecl`. -/
def parseDirectiveDecl : Nat → PState → M (GlobalDecl × PState)
  | 0, _ => .error .fuelOut
  | _+1, s => do
    let pos := (headT s).pos
    let (dtk, s) ← accept .Directive s
    .ok (.directiveDecl pos dtk.spell, s)

/-- `HLSLParser::ParseAttribute`: `[ ident ]` or `[ ident ( args ) ]`
(recall `LParen`/`RParen` are the square brackets and
`LBracket`/`RBracket` the parentheses). -/
def parseAttribute : Nat → PState → M (FunctionCall × PState)
  | 0, _ => .error .fuelOut
  | f+1, s => do
    let pos := (headT s).pos
    let (_, s) ← accept .LParen s
    let vipos := (headT s).pos
    let (ntk, s) ← accept .Ident s
    if (headT s).type = .LBracket then
      let (_, s) := acceptIt s
      let (args, s) ← parseExprList f .RBracket false s
      let (_, s) ← accept .RBracket s
      let (_, s) ← accept .RParen s
      .ok (.mk pos (VarIdent.mk vipos ntk.spell [] none) args, s)
    else
      let (_, s) ← accept .RParen s
      .ok (.mk pos (VarIdent.mk vipos ntk.spell [] none) [], s)

/-- `HLSLParser::ParsePackOffset(parseColon)`. -/
def parsePackOffset : Nat → Bool → PState → M (PackOffset × PState)
  | 0, _, _ => .error .fuelOut
  | _+1, parseColon, s => do
    let pos := (headT s).pos
    let (_, s) ←
      if parseColon then accept .Colon s
      else .ok (eosToken, s)
    let (_, s) ← accept .PackOffset s
    let (_, s) ← accept .LBracket s
    let (rtk, s) ← accept .Ident s
    if (headT s).type = .Dot then
      let (_, s) := acceptIt s
      let (ctk, s) ← accept .Ident s
      let (_, s) ← accept .RBracket s
      .ok (⟨pos, rtk.spell, ctk.spell⟩, s)
    else
      let (_, s) ← accept .RBracket s
      .ok (⟨pos, rtk.spell, ""⟩, s)

/-- `HLSLParser::ParseArrayDimension`. -/
def parseArrayDimension : Nat → PState → M (Expr × PState)
  | 0, _ => .error .fuelOut
  | f+1, s => do
    let (_, s) ← accept .LParen s
    let (e, s) ← parseExpr f false none s
    let (_, s) ← accept .RParen s
    .ok (e, s)

/-- `HLSLParser::ParseInitializer`. -/
def parseInitializer : Nat → PState → M (Expr × PState)
  | 0, _ => .error .fuelOut
  | f+1, s => do
    let (_, s) ← acceptSpell .AssignOp "=" s
    parseExpr f false none s

/-- `HLSLParser::ParseVarSemantic`. -/
def parseVarSemantic : Nat → PState → M (VarSemantic × PState)
  | 0, _ => .error .fuelOut
  | f+1, s => do
    let pos := (headT s).pos
    let (_, s) ← accept .Colon s
    if (headT s).type = .Register then
      let (reg, s) ← parseRegister f false s
      .ok (⟨pos, "", reg, none⟩, s)
    else if (headT s).type = .PackOffset then
      let (po, s) ← parsePackOffset f false s
      .ok (⟨pos, "", "", some po⟩, s)
    else
      let (stk, s) ← accept .Ident s
      .ok (⟨pos, stk.spell, "", none⟩, s)

/-- `HLSLParser::ParseVarIdent`. -/
def parseVarIdent : Nat → PState → M (VarIdent × PState)
  | 0, _ => .error .fuelOut
  | f+1, s => do
    let pos := (headT s).pos
    let (itk, s) ← accept .Ident s
    let (dims, s) ← parseArrayDimensionList f s
    if (headT s).type = .Dot then
      let (_, s) := acceptIt s
      let (nxt, s) ← parseVarIdent f s
      .ok (.mk pos itk.spell dims (some nxt), s)
    else
      .ok (.mk pos itk.spell dims none, s)

/-- `HLSLParser::ParseVarType(parseVoidType)`: only here, for the inline
structure type, is `symbolRef` populated (`ast->symbolRef =
ast->structType.get()`). -/
def parseVarType : Nat → Bool → PState → M (VarType × PState)
  | 0, _, _ => .error .fuelOut
  | f+1, parseVoidType, s => do
    let pos := (headT s).pos
    if (headT s).type = .Void then
      if parseVoidType then
        let (tk, s) := acceptIt s
        .ok (.mk pos tk.spell none none, s)
      else
        errMsg s "'void' type not allowed in this context"
    else if (headT s).type = .Ident || isDataType s then
      let (tk, s) := acceptIt s
      .ok (.mk pos tk.spell none none, s)
    else if (headT s).type = .Struct then
      let (st, s) ← parseStructure f s
      .ok (.mk pos "" (some st) (some st.id), s)
    else
      errUnexpectedHint s "expected type specifier"

/-- `HLSLParser::ParseVarDecl`: `declStmntRef` starts out null. -/
def parseVarDecl : Nat → PState → M (VarDecl × PState)
  | 0, _ => .error .fuelOut
  | f+1, s => do
    let pos := (headT s).pos
    let (ntk, s) ← accept .Ident s
    let (dims, s) ← parseArrayDimensionList f s
    let (sems, s) ← parseVarSemanticList f s
    if isTkSpell s .AssignOp "=" then
      let (ini, s) ← parseInitializer f s
      .ok (.mk pos ntk.spell dims sems (some ini) none, s)
    else
      .ok (.mk pos ntk.spell dims sems none none, s)

/-- `HLSLParser::ParseStmnt`: attributes are parsed up front and handed to
the `switch` over the current token kind (split off as
`parseStmntAfterAttribs`). -/
def parseStmnt : Nat → PState → M (Stmnt × PState)
  | 0, _ => .error .fuelOut
  | f+1, s => do
    let (attribs, s) ←
      if (headT s).type = .LParen then parseAttributeList f s
      else .ok (([] : List FunctionCall), s)
    parseStmntAfterAttribs f attribs s

/-- The `switch (Type())` body of `HLSLParser::ParseStmnt`: only the
`for`, `while`, `do`, `if` and `switch` alternatives receive the parsed
attribute list. -/
def parseStmntAfterAttribs :
    Nat → List FunctionCall → PState → M (Stmnt × PState)
  | 0, _, _ => .error .fuelOut
  | f+1, attribs, s =>
    match (headT s).type with
    | .Semicolon => parseNullStmnt f s
    | .Directive => parseDirectiveStmnt f s
    | .LCurly => parseCodeBlockStmnt f s
    | .Return => parseReturnStmnt f s
    | .Ident => parseVarDeclOrAssignOrFunctionCallStmnt f s
    | .For => parseForLoopStmnt f attribs s
    | .While => parseWhileLoopStmnt f attribs s
    | .Do => parseDoWhileLoopStmnt f attribs s
    | .If => parseIfStmnt f attribs s
    | .Switch => parseSwitchStmnt f attribs s
    | .CtrlTransfer => parseCtrlTransferStmnt f s
    | .Struct => parseStructDeclOrVarDeclStmnt f s
    | .TypeModifier => do
        let (v, s) ← parseVarDeclStmnt f s
        .ok (.varDeclStmnt v, s)
    | .StorageModifier => do
        let (v, s) ← parseVarDeclStmnt f s
        .ok (.varDeclStmnt v, s)
    | _ =>
      if isDataType s then do
        let (v, s) ← parseVarDeclStmnt f s
        .ok (.varDeclStmnt v, s)
      else
        parseExprStmnt f none s

/-- `HLSLParser::ParseNullStmnt`. -/
def parseNullStmnt : Nat → PState → M (Stmnt × PState)
  | 0, _ => .error .fuelOut
  | _+1, s => do
    let pos := (headT s).pos
    let (_, s) ← accept .Semicolon s
    .ok (.nullStmnt pos, s)

/-- `HLSLParser::ParseDirectiveStmnt`. -/
def parseDirectiveStmnt : Nat → PState → M (Stmnt × PState)
  | 0, _ => .error .fuelOut
  | _+1, s => do
    let pos := (headT s).pos
    let (dtk, s) ← accept .Directive s
    .ok (.directiveStmnt pos dtk.spell, s)

/-- `HLSLParser::ParseCodeBlockStmnt`. -/
def parseCodeBlockStmnt : Nat → PState → M (Stmnt × PState)
  | 0, _ => .error .fuelOut
  | f+1, s => do
    let pos := (headT s).pos
    let (cb, s) ← parseCodeBlock f s
    .ok (.codeBlockStmnt pos cb, s)

/-- `HLSLParser::ParseForLoopStmnt(attribs)`. -/
def parseForLoopStmnt :
    Nat → List FunctionCall → PState → M (Stmnt × PState)
  | 0, _, _ => .error .fuelOut
  | f+1, attribs, s => do
    let pos := (headT s).pos
    let (_, s) ← accept .For s
    let (_, s) ← accept .LBracket s
    let (ini, s) ← parseStmnt f s
    let (cond, s) ←
      if (headT s).type = .Semicolon then .ok ((none : Option Expr), s)
      else do
        let (e, s) ← parseExpr f true none s
        .ok (some e, s)
    let (_, s) ← accept .Semicolon s
    let (iter, s) ←
      if (headT s).type = .RBracket then .ok ((none : Option Expr), s)
      else do
        let (e, s) ← parseExpr f true none s
        .ok (some e, s)
    let (_, s) ← accept .RBracket s
    let (body, s) ← parseStmnt f s
    .ok (.forLoopStmnt pos attribs ini cond iter body, s)

/-- `HLSLParser::ParseWhileLoopStmnt(attribs)`. -/
def parseWhileLoopStmnt :
    Nat → List FunctionCall → PState → M (Stmnt × PState)
  | 0, _, _ => .error .fuelOut
  | f+1, attribs, s => do
    let pos := (headT s).pos
    let (_, s) ← accept .While s
    let (_, s) ← accept .LBracket s
    let (cond, s) ← parseExpr f true none s
    let (_, s) ← accept .RBracket s
    let (body, s) ← parseStmnt f s
    .ok (.whileLoopStmnt pos attribs cond body, s)

/-- `HLSLParser::ParseDoWhileLoopStmnt(attribs)`. -/
def parseDoWhileLoopStmnt :
    Nat → List FunctionCall → PState → M (Stmnt × PState)
  | 0, _, _ => .error .fuelOut
  | f+1, attribs, s => do
    let pos := (headT s).pos
    let (_, s) ← accept .Do s
    let (body, s) ← parseStmnt f s
    let (_, s) ← accept .While s
    let (_, s) ← accept .LBracket s
    let (cond, s) ← parseExpr f true none s
    let (_, s) ← accept .RBracket s
    let (_, s) ← accept .Semicolon s
    .ok (.doWhileLoopStmnt pos attribs body cond, s)

/-- `HLSLParser::ParseIfStmnt(attribs)`. -/
def parseIfStmnt :
    Nat → List FunctionCall → PState → M (Stmnt × PState)
  | 0, _, _ => .error .fuelOut
  | f+1, attribs, s => do
    let pos := (headT s).pos
    let (_, s) ← accept .If s
    let (_, s) ← accept .LBracket s
    let (cond, s) ← parseExpr f true none s
    let (_, s) ← accept .RBracket s
    let (body, s) ← parseStmnt f s
    if (headT s).type = .Else then
      let (els, s) ← parseElseStmnt f s
      .ok (.ifStmnt pos attribs cond body (some els), s)
    else
      .ok (.ifStmnt pos attribs cond body none, s)

/-- `HLSLParser::ParseElseStmnt`. -/
def parseElseStmnt : Nat → PState → M (ElseStmnt × PState)
  | 0, _ => .error .fuelOut
  | f+1, s => do
    let pos := (headT s).pos
    let (_, s) ← accept .Else s
    let (body, s) ← parseStmnt f s
    .ok (.mk pos body, s)

/-- `HLSLParser::ParseSwitchStmnt(attribs)`. -/
def parseSwitchStmnt :
    Nat → List FunctionCall → PState → M (Stmnt × PState)
  | 0, _, _ => .error .fuelOut
  | f+1, attribs, s => do
    let pos := (headT s).pos
    let (_, s) ← accept .Switch s
    let (_, s) ← accept .LBracket s
    let (sel, s) ← parseExpr f true none s
    let (_, s) ← accept .RBracket s
    let (_, s) ← accept .LCurly s
    let (cases, s) ← parseSwitchCaseList f s
    let (_, s) ← accept .RCurly s
    .ok (.switchStmnt pos attribs sel cases, s)

/-- `HLSLParser::ParseCtrlTransferStmnt`. -/
def parseCtrlTransferStmnt : Nat → PState → M (Stmnt × PState)
  | 0, _ => .error .fuelOut
  | _+1, s => do
    let pos := (headT s).pos
    let (ctk, s) ← accept .CtrlTransfer s
    let (_, s) ← accept .Semicolon s
    .ok (.ctrlTransferStmnt pos ctk.spell, s)

/-- `HLSLParser::ParseVarDeclStmnt`: after the declarator list, every
`VarDecl` is decorated with this statement node
(`varDecl->declStmntRef = ast.get()`).  In the `struct` break case the
`VarType` receives the structure but no `symbolRef`. -/
def parseVarDeclStmnt : Nat → PState → M (VarDeclStmnt × PState)
  | 0, _ => .error .fuelOut
  | f+1, s => do
    let pos := (headT s).pos
    let (vid, s) := makeId s
    let (smods, tmods, toks2) := parseDeclModifiers s.toks [] []
    let s := { s with toks := toks2 }
    let (vt, s) ←
      if (headT s).type = .Ident then
        let (tk, s) := acceptIt s
        .ok (VarType.mk (headT s).pos tk.spell none none, s)
      else if (headT s).type = .Struct then
        let vtpos := (headT s).pos
        let (st, s) ← parseStructure f s
        .ok (VarType.mk vtpos "" (some st) none, s)
      else if isDataType s then
        let vtpos := (headT s).pos
        let (tk, s) := acceptIt s
        .ok (VarType.mk vtpos tk.spell none none, s)
      else
        errUnexpected s
    let (decls, s) ← parseVarDeclList f s
    let (_, s) ← accept .Semicolon s
    .ok (.mk pos vid "" smods tmods vt
      (decls.map (fun vd => vd.setDeclStmntRef vid)), s)

/-- `HLSLParser::ParseReturnStmnt`. -/
def parseReturnStmnt : Nat → PState → M (Stmnt × PState)
  | 0, _ => .error .fuelOut
  | f+1, s => do
    let pos := (headT s).pos
    let (_, s) ← accept .Return s
    let (e, s) ←
      if (headT s).type = .Semicolon then .ok ((none : Option Expr), s)
      else do
        let (e, s) ← parseExpr f true none s
        .ok (some e, s)
    let (_, s) ← accept .Semicolon s
    .ok (.returnStmnt pos e, s)

/-- `HLSLParser::ParseExprStmnt(varIdent)`. -/
def parseExprStmnt : Nat → Option VarIdent → PState → M (Stmnt × PState)
  | 0, _, _ => .error .fuelOut
  | f+1, varIdent, s => do
    let pos := (headT s).pos
    match varIdent with
    | some vi =>
      let vapos := (headT s).pos
      let (e, s) ← parseExpr f true
        (some (.varAccessExpr vapos vi "" none)) s
      let (_, s) ← accept .Semicolon s
      .ok (.exprStmnt pos e, s)
    | none =>
      let (e, s) ← parseExpr f true none s
      let (_, s) ← accept .Semicolon s
      .ok (.exprStmnt pos e, s)

/-- `HLSLParser::ParseStructDeclOrVarDeclStmnt`: in the variable-declaration
branch the fresh `VarDeclStmnt` neither sets `symbolRef` on its `VarType`
nor decorates its `VarDecl`s with `declStmntRef`. -/
def parseStructDeclOrVarDeclStmnt : Nat → PState → M (Stmnt × PState)
  | 0, _ => .error .fuelOut
  | f+1, s => do
    let pos := (headT s).pos
    let (st, s) ← parseStructure f s
    if (headT s).type = .Semicolon then
      let (_, s) ← accept .Semicolon s
      .ok (.structDeclStmnt pos st, s)
    else
      let vdpos := (headT s).pos
      let (vid, s) := makeId s
      let vt := VarType.mk (headT s).pos "" (some st) none
      let (decls, s) ← parseVarDeclList f s
      let (_, s) ← accept .Semicolon s
      .ok (.varDeclStmnt (.mk vdpos vid "" [] [] vt decls), s)

/-- `HLSLParser::ParseVarDeclOrAssignOrFunctionCallStmnt`. -/
def parseVarDeclOrAssignOrFunctionCallStmnt :
    Nat → PState → M (Stmnt × PState)
  | 0, _ => .error .fuelOut
  | f+1, s => do
    let (vi, s) ← parseVarIdent f s
    if (headT s).type = .LBracket then
      let pos := (headT s).pos
      let (call, s) ← parseFunctionCall f (some vi) s
      let (_, s) ← accept .Semicolon s
      .ok (.functionCallStmnt pos call, s)
    else if (headT s).type = .AssignOp then
      let pos := (headT s).pos
      let (optk, s) := acceptIt s
      let (e, s) ← parseExpr f true none s
      let (_, s) ← accept .Semicolon s
      .ok (.assignStmnt pos vi optk.spell e, s)
    else if isTkSpell s .UnaryOp "++" || isTkSpell s .UnaryOp "--" then
      parseExprStmnt f (some vi) s
    else if vi.next.isNone then
      let pos := (headT s).pos
      let (vid, s) := makeId s
      let vt := VarType.mk (headT s).pos vi.ident none none
      let (decls, s) ← parseVarDeclList f s
      let (_, s) ← accept .Semicolon s
      .ok (.varDeclStmnt (.mk pos vid "" [] [] vt
        (decls.map (fun vd => vd.setDeclStmntRef vid))), s)
    else
      errUnexpectedHint s
        "expected variable declaration, assignment or function call statement"

/-- `HLSLParser::ParseExpr(allowComma, initExpr)`: a primary (or the handed
initial expression), an optional postfix unary, then at most one of binary
(right operand parsed recursively), ternary, or comma list. -/
def parseExpr : Nat → Bool → Option Expr → PState → M (Expr × PState)
  | 0, _, _, _ => .error .fuelOut
  | f+1, allowComma, initExpr, s => do
    let (e0, s) ←
      match initExpr with
      | some e => .ok (e, s)
      | none => parsePrimaryExpr f s
    let (e1, s) :=
      if (headT s).type = .UnaryOp then
        let pos := (headT s).pos
        let (optk, s2) := acceptIt s
        ((.postUnaryExpr pos optk.spell e0 : Expr), s2)
      else (e0, s)
    if (headT s).type = .BinaryOp then
      let pos := (headT s).pos
      let (optk, s) := acceptIt s
      let (rhs, s) ← parseExpr f allowComma none s
      .ok (.binaryExpr pos optk.spell e1 rhs, s)
    else if (headT s).type = .TernaryOp then
      let pos := (headT s).pos
      let (_, s) := acceptIt s
      let (ifE, s) ← parseExpr f false none s
      let (_, s) ← accept .Colon s
      let (elseE, s) ← parseExpr f false none s
      .ok (.ternaryExpr pos e1 ifE elseE, s)
    else if allowComma ∧ (headT s).type = .Comma then
      let (_, s) := acceptIt s
      let pos := (headT s).pos
      let (nxt, s) ← parseExpr f true none s
      .ok (.listExpr pos e1 nxt, s)
    else
      .ok (e1, s)

/-- `HLSLParser::ParsePrimaryExpr`. -/
def parsePrimaryExpr : Nat → PState → M (Expr × PState)
  | 0, _ => .error .fuelOut
  | f+1, s =>
    if isLiteral s then parseLiteralExpr f s
    else if isDataType s then parseTypeNameOrFunctionCallExpr f s
    else if isTk s .UnaryOp || isTkSpell s .BinaryOp "-" then
      parseUnaryExpr f s
    else if isTk s .LBracket then parseBracketOrCastExpr f s
    else if isTk s .LCurly then parseInitializerExpr f s
    else if isTk s .Ident then parseVarAccessOrFunctionCallExpr f s
    else errUnexpectedHint s "expected primary expression"

/-- `HLSLParser::ParseLiteralExpr`. -/
def parseLiteralExpr : Nat → PState → M (Expr × PState)
  | 0, _ => .error .fuelOut
  | _+1, s =>
    if isLiteral s then
      let pos := (headT s).pos
      let (tk, s) := acceptIt s
      .ok (.literalExpr pos tk.spell, s)
    else errUnexpectedHint s "expected literal expression"

/-- `HLSLParser::ParseTypeNameOrFunctionCallExpr`. -/
def parseTypeNameOrFunctionCallExpr : Nat → PState → M (Expr × PState)
  | 0, _ => .error .fuelOut
  | f+1, s =>
    if isDataType s then
      let (tk, s) := acceptIt s
      if (headT s).type = .LBracket then
        let vipos := (headT s).pos
        parseFunctionCallExpr f (some (VarIdent.mk vipos tk.spell [] none)) s
      else
        .ok (.typeNameExpr (headT s).pos tk.spell, s)
    else errUnexpectedHint s "expected type name or function call expression"

/-- `HLSLParser::ParseUnaryExpr`. -/
def parseUnaryExpr : Nat → PState → M (Expr × PState)
  | 0, _ => .error .fuelOut
  | f+1, s =>
    if isTk s .UnaryOp || isTkSpell s .BinaryOp "-" then do
      let pos := (headT s).pos
      let (optk, s) := acceptIt s
      let (e, s) ← parsePrimaryExpr f s
      .ok (.unaryExpr pos optk.spell e, s)
    else errUnexpectedHint s "expected unary expression operator"

/-- `HLSLParser::ParseBracketOrCastExpr`: after `( E )`, a cast expression
is built iff another primary expression can start here and `E` is a
`TypeNameExpr` or a `VarAccessExpr` with null `assignExpr`; otherwise a
bracket expression. -/
def parseBracketOrCastExpr : Nat → PState → M (Expr × PState)
  | 0, _ => .error .fuelOut
  | f+1, s => do
    let (_, s) ← accept .LBracket s
    let (e, s) ← parseExpr f true none s
    let (_, s) ← accept .RBracket s
    if isPrimaryExpr s && (e.isTypeNameExpr || e.isVarAccessNoAssign) then
      let pos := (headT s).pos
      let (x, s) ← parsePrimaryExpr f s
      .ok (.castExpr pos e x, s)
    else
      .ok (.bracketExpr (headT s).pos e, s)

/-- `HLSLParser::ParseVarAccessOrFunctionCallExpr`. -/
def parseVarAccessOrFunctionCallExpr : Nat → PState → M (Expr × PState)
  | 0, _ => .error .fuelOut
  | f+1, s => do
    let (vi, s) ← parseVarIdent f s
    if (headT s).type = .LBracket then
      parseFunctionCallExpr f (some vi) s
    else
      parseVarAccessExpr f (some vi) s

/-- `HLSLParser::ParseVarAccessExpr(varIdent)`. -/
def parseVarAccessExpr :
    Nat → Option VarIdent → PState → M (Expr × PState)
  | 0, _, _ => .error .fuelOut
  | f+1, varIdent, s => do
    let pos := (headT s).pos
    let (vi, s) ←
      match varIdent with
      | some vi => .ok (vi, s)
      | none => parseVarIdent f s
    if (headT s).type = .AssignOp then
      let (optk, s) := acceptIt s
      let (ae, s) ← parseExpr f false none s
      .ok (.varAccessExpr pos vi optk.spell (some ae), s)
    else
      .ok (.varAccessExpr pos vi "" none, s)

/-- `HLSLParser::ParseFunctionCallExpr(varIdent)`. -/
def parseFunctionCallExpr :
    Nat → Option VarIdent → PState → M (Expr × PState)
  | 0, _, _ => .error .fuelOut
  | f+1, varIdent, s => do
    let pos := (headT s).pos
    let (call, s) ← parseFunctionCall f varIdent s
    .ok (.functionCallExpr pos call, s)

/-- `HLSLParser::ParseInitializerExpr`. -/
def parseInitializerExpr : Nat → PState → M (Expr × PState)
  | 0, _ => .error .fuelOut
  | f+1, s => do
    let pos := (headT s).pos
    let (es, s) ← parseInitializerList f s
    .ok (.initializerExpr pos es, s)

/-- `HLSLParser::ParseVarDeclList` (declarators separated by commas). -/
def parseVarDeclList : Nat → PState → M (List VarDecl × PState)
  | 0, _ => .error .fuelOut
  | f+1, s => do
    let (vd, s) ← parseVarDecl f s
    if (headT s).type = .Comma then
      let (_, s) := acceptIt s
      let (rest, s) ← parseVarDeclList f s
      .ok (vd :: rest, s)
    else
      .ok ([vd], s)

/-- `HLSLParser::ParseVarDeclStmntList` (braced member list). -/
def parseVarDeclStmntList : Nat → PState → M (List VarDeclStmnt × PState)
  | 0, _ => .error .fuelOut
  | f+1, s => do
    let (_, s) ← accept .LCurly s
    let (ms, s) ← parseVarDeclStmntItems f s
    let (_, s) := acceptIt s
    .ok (ms, s)

/-- The `while (!Is(Tokens::RCurly))` loop of `ParseVarDeclStmntList`. -/
def parseVarDeclStmntItems : Nat → PState → M (List VarDeclStmnt × PState)
  | 0, _ => .error .fuelOut
  | f+1, s =>
    if (headT s).type = .RCurly then .ok ([], s)
    else do
      let (m, s) ← parseVarDeclStmnt f s
      let (ms, s) ← parseVarDeclStmntItems f s
      .ok (m :: ms, s)

/-- `HLSLParser::ParseParameterList`. -/
def parseParameterList : Nat → PState → M (List VarDeclStmnt × PState)
  | 0, _ => .error .fuelOut
  | f+1, s => do
    let (_, s) ← accept .LBracket s
    let (ps, s) ←
      if (headT s).type = .RBracket then
        .ok (([] : List VarDeclStmnt), s)
      else
        parseParameterItems f s
    let (_, s) ← accept .RBracket s
    .ok (ps, s)

/-- The comma loop of `ParseParameterList`. -/
def parseParameterItems : Nat → PState → M (List VarDeclStmnt × PState)
  | 0, _ => .error .fuelOut
  | f+1, s => do
    let (p, s) ← parseParameter f s
    if (headT s).type = .Comma then
      let (_, s) := acceptIt s
      let (rest, s) ← parseParameterItems f s
      .ok (p :: rest, s)
    else
      .ok ([p], s)

/-- `HLSLParser::ParseStmntList` (`while` not `}`). -/
def parseStmntList : Nat → PState → M (List Stmnt × PState)
  | 0, _ => .error .fuelOut
  | f+1, s =>
    if (headT s).type = .RCurly then .ok ([], s)
    else do
      let (st, s) ← parseStmnt f s
      let (sts, s) ← parseStmntList f s
      .ok (st :: sts, s)

/-- `HLSLParser::ParseExprList(listTerminatorToken, allowLastComma)`. -/
def parseExprList : Nat → Tokens → Bool → PState → M (List Expr × PState)
  | 0, _, _, _ => .error .fuelOut
  | f+1, term, allowLastComma, s =>
    if (headT s).type = term then .ok ([], s)
    else parseExprItems f term allowLastComma s

/-- The `while (true)` loop of `ParseExprList`. -/
def parseExprItems : Nat → Tokens → Bool → PState → M (List Expr × PState)
  | 0, _, _, _ => .error .fuelOut
  | f+1, term, allowLastComma, s => do
    let (e, s) ← parseExpr f false none s
    if (headT s).type = .Comma then
      let (_, s) := acceptIt s
      if allowLastComma ∧ (headT s).type = term then
        .ok ([e], s)
      else
        let (rest, s) ← parseExprItems f term allowLastComma s
        .ok (e :: rest, s)
    else
      .ok ([e], s)

/-- `HLSLParser::ParseArrayDimensionList` (`while` on `[`). -/
def parseArrayDimensionList : Nat → PState → M (List Expr × PState)
  | 0, _ => .error .fuelOut
  | f+1, s =>
    if (headT s).type = .LParen then do
      let (e, s) ← parseArrayDimension f s
      let (es, s) ← parseArrayDimensionList f s
      .ok (e :: es, s)
    else .ok ([], s)

/-- `HLSLParser::ParseArgumentList`. -/
def parseArgumentList : Nat → PState → M (List Expr × PState)
  | 0, _ => .error .fuelOut
  | f+1, s => do
    let (_, s) ← accept .LBracket s
    let (args, s) ← parseExprList f .RBracket false s
    let (_, s) ← accept .RBracket s
    .ok (args, s)

/-- `HLSLParser::ParseInitializerList`. -/
def parseInitializerList : Nat → PState → M (List Expr × PState)
  | 0, _ => .error .fuelOut
  | f+1, s => do
    let (_, s) ← accept .LCurly s
    let (args, s) ← parseExprList f .RCurly true s
    let (_, s) ← accept .RCurly s
    .ok (args, s)

/-- `HLSLParser::ParseVarSemanticList` (`while` on `:`). -/
def parseVarSemanticList : Nat → PState → M (List VarSemantic × PState)
  | 0, _ => .error .fuelOut
  | f+1, s =>
    if (headT s).type = .Colon then do
      let (v, s) ← parseVarSemantic f s
      let (vs, s) ← parseVarSemanticList f s
      .ok (v :: vs, s)
    else .ok ([], s)

/-- `HLSLParser::ParseAttributeList` (`while` on `[`). -/
def parseAttributeList : Nat → PState → M (List FunctionCall × PState)
  | 0, _ => .error .fuelOut
  | f+1, s =>
    if (headT s).type = .LParen then do
      let (a, s) ← parseAttribute f s
      let (as2, s) ← parseAttributeList f s
      .ok (a :: as2, s)
    else .ok ([], s)

/-- `HLSLParser::ParseSwitchCaseList` (`while` on `case`/`default`). -/
def parseSwitchCaseList : Nat → PState → M (List SwitchCase × PState)
  | 0, _ => .error .fuelOut
  | f+1, s =>
    if (headT s).type = .Case ∨ (headT s).type = .Default then do
      let (c, s) ← parseSwitchCase f s
      let (cs, s) ← parseSwitchCaseList f s
      .ok (c :: cs, s)
    else .ok ([], s)

/-- `HLSLParser::ParseBufferDeclIdentList`. -/
def parseBufferDeclIdentList :
    Nat → PState → M (List BufferDeclIdent × PState)
  | 0, _ => .error .fuelOut
  | f+1, s => do
    let (b, s) ← parseBufferDeclIdent f s
    let (bs, s) ← parseBufferDeclIdentItems f s
    .ok (b :: bs, s)

/-- The comma loop of `ParseBufferDeclIdentList`. -/
def parseBufferDeclIdentItems :
    Nat → PState → M (List BufferDeclIdent × PState)
  | 0, _ => .error .fuelOut
  | f+1, s =>
    if (headT s).type = .Comma then do
      let (_, s) := acceptIt s
      let (b, s) ← parseBufferDeclIdent f s
      let (bs, s) ← parseBufferDeclIdentItems f s
      .ok (b :: bs, s)
    else .ok ([], s)

/-- `HLSLParser::ParseRegister(parseColon)`. -/
def parseRegister : Nat → Bool → PState → M (String × PState)
  | 0, _, _ => .error .fuelOut
  | _+1, parseColon, s => do
    let (_, s) ←
      if parseColon then accept .Colon s
      else .ok (eosToken, s)
    let (_, s) ← accept .Register s
    let (_, s) ← accept .LBracket s
    let (rtk, s) ← accept .Ident s
    let (_, s) ← accept .RBracket s
    .ok (rtk.spell, s)

/-- `HLSLParser::ParseSemantic`. -/
def parseSemantic : Nat → PState → M (String × PState)
  | 0, _ => .error .fuelOut
  | _+1, s => do
    let (_, s) ← accept .Colon s
    let (stk, s) ← accept .Ident s
    .ok (stk.spell, s)

end

/-! ## Entry point -/

/-- Modelled from the spec: the scanner (`HLSLScanner`, whose implementation
is not among the sources at hand) either fails with a scan error, making
`scanner_.ScanSource(source)` return `false`, or delivers the token stream
consumed by the parser. -/
inductive ScanResult
  | success (toks : List Token)
  | failure
deriving DecidableEq, Repr

/-- Message carried by a parse error (`err.what()`). -/
def errToMsg : PErr → String
  | .parseErr m => m
  | .fuelOut => "fuel exhausted"

/-- `HLSLParser::ParseSource`: on scan failure the function returns null (the
source writes `return false` into the `ProgramPtr` return slot); a parse
error is caught, logged through `log_->Error(err.what())` when a logger is
attached, and turned into a null return.  The returned pair is the
`ProgramPtr` result and the list of lines the attached logger received. -/
def parseSource (fuel : Nat) (logAttached : Bool) (scan : ScanResult) :
    Option Program × List String :=
  match scan with
  | .failure => (none, [])
  | .success toks =>
    match parseProgram fuel { toks := toks, nextId := 0 } with
    | .ok (prog, _) => (some prog, [])
    | .error e => (none, if logAttached then [errToMsg e] else [])

/-! ## The AST printer (`ASTPrinter.cpp`)

Each `Visit...` member prints one line `Kind (L:C)` with an optional
` "info"` suffix (`ASTPrinter::Print`) and visits a selection of the node's
children one indentation level deeper (`SCOPED_INDENT`).  The embedding
returns the list of emitted lines paired with the indentation each was
printed at; `Visit` on a null pointer is the base visitor's no-op. -/

/-- One logged line: indentation level and message. -/
abbrev Lines := List (Nat × String)

/-- `ASTPrinter::Print(ast, astName, info)`. -/
def printMsg (astName : String) (p : SourcePos) (info : String) : String :=
  astName ++ " (" ++ p.toStr ++ ")"
    ++ (if info = "" then "" else " \"" ++ info ++ "\"")

/-- `ASTPrinter::VisitPackOffset`. -/
def visitPackOffset (d : Nat) (a : PackOffset) : Lines :=
  [(d, printMsg "PackOffset" a.pos
    (a.registerName
      ++ (if a.vectorComponent = "" then ""
          else " (" ++ a.vectorComponent ++ ")")))]

/-- `ASTPrinter::VisitVarSemantic`. -/
def visitVarSemantic (d : Nat) (a : VarSemantic) : Lines :=
  (d, printMsg "VarSemantic" a.pos
    (a.semantic
      ++ (if a.registerName = "" then ""
          else " (" ++ a.registerName ++ ")")))
    :: (match a.packOffset with
        | some po => visitPackOffset (d+1) po
        | none => [])

/-- List iteration for `VisitVarDecl` over semantics. -/
def visitVarSemanticList (d : Nat) : List VarSemantic → Lines
  | [] => []
  | v :: vs => visitVarSemantic d v ++ visitVarSemanticList d vs

/-- `ASTPrinter::VisitBufferDeclIdent`. -/
def visitBufferDeclIdent (d : Nat) (a : BufferDeclIdent) : Lines :=
  [(d, printMsg "BufferDeclIdent" a.pos a.ident)]

/-- List iteration over `BufferDeclIdent`s. -/
def visitBufferDeclIdentList (d : Nat) : List BufferDeclIdent → Lines
  | [] => []
  | b :: bs => visitBufferDeclIdent d b ++ visitBufferDeclIdentList d bs

mutual

/-- Dispatch over expressions (`ASTPrinter::Visit...Expr`).  Note
`VisitCastExpr` visits only `typeExpr` and `VisitVarAccessExpr` visits
`varIdent` and `assignExpr`. -/
def visitExpr (d : Nat) : Expr → Lines
  | .listExpr p a b =>
    (d, printMsg "ListExpr" p "") :: (visitExpr (d+1) a ++ visitExpr (d+1) b)
  | .literalExpr p lit => [(d, printMsg "LiteralExpr" p lit)]
  | .typeNameExpr p tn => [(d, printMsg "TypeNameExpr" p tn)]
  | .ternaryExpr p c i e =>
    (d, printMsg "TernaryExpr" p "")
      :: (visitExpr (d+1) c ++ visitExpr (d+1) i ++ visitExpr (d+1) e)
  | .binaryExpr p op l r =>
    (d, printMsg "BinaryExpr" p op)
      :: (visitExpr (d+1) l ++ visitExpr (d+1) r)
  | .unaryExpr p op e => (d, printMsg "UnaryExpr" p op) :: visitExpr (d+1) e
  | .postUnaryExpr p op e =>
    (d, printMsg "PostUnaryExpr" p op) :: visitExpr (d+1) e
  | .functionCallExpr p call =>
    (d, printMsg "FunctionCallExpr" p "") :: visitFunctionCall (d+1) call
  | .bracketExpr p e => (d, printMsg "BracketExpr" p "") :: visitExpr (d+1) e
  | .castExpr p t _ => (d, printMsg "CastExpr" p "") :: visitExpr (d+1) t
  | .varAccessExpr p vi _ ae =>
    (d, printMsg "VarAccessExpr" p "")
      :: (visitVarIdent (d+1) vi ++ visitOptExpr (d+1) ae)
  | .initializerExpr p es =>
    (d, printMsg "InitializerExpr" p "") :: visitExprList (d+1) es

/-- `Visit` on a possibly-null expression. -/
def visitOptExpr (d : Nat) : Option Expr → Lines
  | none => []
  | some e => visitExpr d e

/-- List iteration over expressions. -/
def visitExprList (d : Nat) : List Expr → Lines
  | [] => []
  | e :: es => visitExpr d e ++ visitExprList d es

/-- `ASTPrinter::VisitVarIdent`. -/
def visitVarIdent (d : Nat) : VarIdent → Lines
  | .mk p idn idxs nxt =>
    (d, printMsg "VarIdent" p idn)
      :: (visitExprList (d+1) idxs ++ visitOptVarIdent (d+1) nxt)

/-- `Visit` on a possibly-null `VarIdent`. -/
def visitOptVarIdent (d : Nat) : Option VarIdent → Lines
  | none => []
  | some vi => visitVarIdent d vi

/-- `ASTPrinter::VisitFunctionCall`. -/
def visitFunctionCall (d : Nat) : FunctionCall → Lines
  | .mk p nm args =>
    (d, printMsg "FunctionCall" p "")
      :: (visitVarIdent (d+1) nm ++ visitExprList (d+1) args)

/-- List iteration over `FunctionCall`s (attributes). -/
def visitFunctionCallList (d : Nat) : List FunctionCall → Lines
  | [] => []
  | c :: cs => visitFunctionCall d c ++ visitFunctionCallList d cs

/-- `ASTPrinter::VisitVarDecl`. -/
def visitVarDecl (d : Nat) : VarDecl → Lines
  | .mk p nm dims sems ini _ =>
    (d, printMsg "VarDecl" p nm)
      :: (visitExprList (d+1) dims ++ visitVarSemanticList (d+1) sems
          ++ visitOptExpr (d+1) ini)

/-- List iteration over `VarDecl`s. -/
def visitVarDeclList (d : Nat) : List VarDecl → Lines
  | [] => []
  | v :: vs => visitVarDecl d v ++ visitVarDeclList d vs

/-- `ASTPrinter::VisitVarType`: visits `structType` but not `symbolRef`. -/
def visitVarType (d : Nat) : VarType → Lines
  | .mk p bt st _ =>
    (d, printMsg "VarType" p bt) :: visitOptStructure (d+1) st

/-- `Visit` on a possibly-null `Structure`. -/
def visitOptStructure (d : Nat) : Option Structure → Lines
  | none => []
  | some st => visitStructure d st

/-- `ASTPrinter::VisitStructure`. -/
def visitStructure (d : Nat) : Structure → Lines
  | .mk p _ _ members =>
    (d, printMsg "Structure" p "") :: visitVarDeclStmntList2 (d+1) members

/-- `ASTPrinter::VisitVarDeclStmnt`: visits the declarators only (the
`varType` child is not visited). -/
def visitVarDeclStmnt (d : Nat) : VarDeclStmnt → Lines
  | .mk p _ _ _ _ _ decls =>
    (d, printMsg "VarDeclStmnt" p "") :: visitVarDeclList (d+1) decls

/-- List iteration over `VarDeclStmnt`s (members, parameters). -/
def visitVarDeclStmntList2 (d : Nat) : List VarDeclStmnt → Lines
  | [] => []
  | v :: vs => visitVarDeclStmnt d v ++ visitVarDeclStmntList2 d vs

/-- Dispatch over statements (`ASTPrinter::Visit...Stmnt`).  Note
`VisitAssignStmnt` visits only `expr` and `VisitSwitchCase` visits only its
statements. -/
def visitStmnt (d : Nat) : Stmnt → Lines
  | .nullStmnt p => [(d, printMsg "NullStmnt" p "")]
  | .directiveStmnt p line => [(d, printMsg "DirectiveStmnt" p line)]
  | .codeBlockStmnt p cb =>
    (d, printMsg "CodeBlockStmnt" p "") :: visitCodeBlock (d+1) cb
  | .forLoopStmnt p _ ini cond iter body =>
    (d, printMsg "ForLoopStmnt" p "")
      :: (visitStmnt (d+1) ini ++ visitOptExpr (d+1) cond
          ++ visitOptExpr (d+1) iter ++ visitStmnt (d+1) body)
  | .whileLoopStmnt p _ cond body =>
    (d, printMsg "WhileLoopStmnt" p "")
      :: (visitExpr (d+1) cond ++ visitStmnt (d+1) body)
  | .doWhileLoopStmnt p _ body cond =>
    (d, printMsg "DoWhileLoopStmnt" p "")
      :: (visitStmnt (d+1) body ++ visitExpr (d+1) cond)
  | .ifStmnt p _ cond body els =>
    (d, printMsg "IfStmnt" p "")
      :: (visitExpr (d+1) cond ++ visitStmnt (d+1) body
          ++ visitOptElseStmnt (d+1) els)
  | .switchStmnt p _ sel cases =>
    (d, printMsg "SwitchStmnt" p "")
      :: (visitExpr (d+1) sel ++ visitSwitchCaseList (d+1) cases)
  | .varDeclStmnt v => visitVarDeclStmnt d v
  | .assignStmnt p _ _ e =>
    (d, printMsg "AssignStmnt" p "") :: visitExpr (d+1) e
  | .exprStmnt p e => (d, printMsg "ExprStmnt" p "") :: visitExpr (d+1) e
  | .functionCallStmnt p call =>
    (d, printMsg "FunctionCallStmnt" p "") :: visitFunctionCall (d+1) call
  | .returnStmnt p e =>
    (d, printMsg "ReturnStmnt" p "") :: visitOptExpr (d+1) e
  | .structDeclStmnt p st =>
    (d, printMsg "StructDeclStmnt" p "") :: visitStructure (d+1) st
  | .ctrlTransferStmnt p instr =>
    [(d, printMsg "CtrlTransferStmnt" p instr)]

/-- `ASTPrinter::VisitElseStmnt`. -/
def visitElseStmnt (d : Nat) : ElseStmnt → Lines
  | .mk p body => (d, printMsg "ElseStmnt" p "") :: visitStmnt (d+1) body

/-- `Visit` on a possibly-null `ElseStmnt`. -/
def visitOptElseStmnt (d : Nat) : Option ElseStmnt → Lines
  | none => []
  | some e => visitElseStmnt d e

/-- `ASTPrinter::VisitSwitchCase`: only the statements are visited. -/
def visitSwitchCase (d : Nat) : SwitchCase → Lines
  | .mk p _ stmnts =>
    (d, printMsg "SwitchCase" p "") :: visitStmntList (d+1) stmnts

/-- List iteration over `SwitchCase`s. -/
def visitSwitchCaseList (d : Nat) : List SwitchCase → Lines
  | [] => []
  | c :: cs => visitSwitchCase d c ++ visitSwitchCaseList d cs

/-- List iteration over statements. -/
def visitStmntList (d : Nat) : List Stmnt → Lines
  | [] => []
  | st :: sts => visitStmnt d st ++ visitStmntList d sts

/-- `ASTPrinter::VisitCodeBlock`. -/
def visitCodeBlock (d : Nat) : CodeBlock → Lines
  | .mk p stmnts =>
    (d, printMsg "CodeBlock" p "") :: visitStmntList (d+1) stmnts

/-- `Visit` on a possibly-null `CodeBlock`. -/
def visitOptCodeBlock (d : Nat) : Option CodeBlock → Lines
  | none => []
  | some cb => visitCodeBlock d cb

/-- Dispatch over global declarations (`ASTPrinter::Visit...Decl`).  Note
`VisitFunctionDecl` visits the attributes and the code block only: the
return type, the parameters and the semantic are not visited. -/
def visitGlobalDecl (d : Nat) : GlobalDecl → Lines
  | .functionDecl p attribs _ nm _ _ cb =>
    (d, printMsg "FunctionDecl" p nm)
      :: (visitFunctionCallList (d+1) attribs ++ visitOptCodeBlock (d+1) cb)
  | .uniformBufferDecl p bufferType nm _ members =>
    (d, printMsg "UniformBufferDecl" p (nm ++ " (" ++ bufferType ++ ")"))
      :: visitVarDeclStmntList2 (d+1) members
  | .textureDecl p _ _ names =>
    (d, printMsg "TextureDecl" p "") :: visitBufferDeclIdentList (d+1) names
  | .samplerDecl p _ names =>
    (d, printMsg "SamplerDecl" p "") :: visitBufferDeclIdentList (d+1) names
  | .structDecl p st =>
    (d, printMsg "StructDecl" p "") :: visitStructure (d+1) st
  | .directiveDecl p line => [(d, printMsg "DirectiveDecl" p line)]

/-- List iteration over global declarations. -/
def visitGlobalDeclList (d : Nat) : List GlobalDecl → Lines
  | [] => []
  | g :: gs => visitGlobalDecl d g ++ visitGlobalDeclList d gs

end

/-- `ASTPrinter::DumpAST`, starting at `VisitProgram`. -/
def dumpAST (p : Program) : Lines :=
  (0, printMsg "Program" p.pos "") :: visitGlobalDeclList 1 p.globalDecls

/-! ## Node counts

`countNodes...` counts every node reachable from a root through the
ownership tree of the data model (every child field, as enumerated in the
spec's §3.3).  `countVisited...` counts the nodes the printer actually
reaches, i.e. it omits exactly the children the `Visit...` members skip. -/

/-- Reachable nodes of a `VarSemantic` (itself plus its `packOffset`). -/
def countNodesVarSemantic (a : VarSemantic) : Nat :=
  1 + (match a.packOffset with | some _ => 1 | none => 0)

/-- Reachable nodes of a list of `VarSemantic`s. -/
def countNodesVarSemanticList : List VarSemantic → Nat
  | [] => 0
  | v :: vs => countNodesVarSemantic v + countNodesVarSemanticList vs

mutual

/-- Reachable nodes of an expression. -/
def countNodesExpr : Expr → Nat
  | .listExpr _ a b => 1 + countNodesExpr a + countNodesExpr b
  | .literalExpr _ _ => 1
  | .typeNameExpr _ _ => 1
  | .ternaryExpr _ c i e =>
    1 + countNodesExpr c + countNodesExpr i + countNodesExpr e
  | .binaryExpr _ _ l r => 1 + countNodesExpr l + countNodesExpr r
  | .unaryExpr _ _ e => 1 + countNodesExpr e
  | .postUnaryExpr _ _ e => 1 + countNodesExpr e
  | .functionCallExpr _ call => 1 + countNodesFunctionCall call
  | .bracketExpr _ e => 1 + countNodesExpr e
  | .castExpr _ t e => 1 + countNodesExpr t + countNodesExpr e
  | .varAccessExpr _ vi _ ae =>
    1 + countNodesVarIdent vi + countNodesOptExpr ae
  | .initializerExpr _ es => 1 + countNodesExprList es

/-- Reachable nodes of a possibly-absent expression. -/
def countNodesOptExpr : Option Expr → Nat
  | none => 0
  | some e => countNodesExpr e

/-- Reachable nodes of an expression list. -/
def countNodesExprList : List Expr → Nat
  | [] => 0
  | e :: es => countNodesExpr e + countNodesExprList es

/-- Reachable nodes of a `VarIdent`. -/
def countNodesVarIdent : VarIdent → Nat
  | .mk _ _ idxs nxt =>
    1 + countNodesExprList idxs + countNodesOptVarIdent nxt

/-- Reachable nodes of a possibly-absent `VarIdent`. -/
def countNodesOptVarIdent : Option VarIdent → Nat
  | none => 0
  | some vi => countNodesVarIdent vi

/-- Reachable nodes of a `FunctionCall`. -/
def countNodesFunctionCall : FunctionCall → Nat
  | .mk _ nm args => 1 + countNodesVarIdent nm + countNodesExprList args

/-- Reachable nodes of a list of `FunctionCall`s. -/
def countNodesFunctionCallList : List FunctionCall → Nat
  | [] => 0
  | c :: cs => countNodesFunctionCall c + countNodesFunctionCallList cs

/-- Reachable nodes of a `VarDecl`. -/
def countNodesVarDecl : VarDecl → Nat
  | .mk _ _ dims sems ini _ =>
    1 + countNodesExprList dims + countNodesVarSemanticList sems
      + countNodesOptExpr ini

/-- Reachable nodes of a list of `VarDecl`s. -/
def countNodesVarDeclList : List VarDecl → Nat
  | [] => 0
  | v :: vs => countNodesVarDecl v + countNodesVarDeclList vs

/-- Reachable nodes of a `VarType`. -/
def countNodesVarType : VarType → Nat
  | .mk _ _ st _ => 1 + countNodesOptStructure st

/-- Reachable nodes of a possibly-absent `Structure`. -/
def countNodesOptStructure : Option Structure → Nat
  | none => 0
  | some st => countNodesStructure st

/-- Reachable nodes of a `Structure`. -/
def countNodesStructure : Structure → Nat
  | .mk _ _ _ members => 1 + countNodesVarDeclStmntList members

/-- Reachable nodes of a `VarDeclStmnt` (including its `varType`). -/
def countNodesVarDeclStmnt : VarDeclStmnt → Nat
  | .mk _ _ _ _ _ vt decls =>
    1 + countNodesVarType vt + countNodesVarDeclList decls

/-- Reachable nodes of a list of `VarDeclStmnt`s. -/
def countNodesVarDeclStmntList : List VarDeclStmnt → Nat
  | [] => 0
  | v :: vs => countNodesVarDeclStmnt v + countNodesVarDeclStmntList vs

/-- Reachable nodes of a statement. -/
def countNodesStmnt : Stmnt → Nat
  | .nullStmnt _ => 1
  | .directiveStmnt _ _ => 1
  | .codeBlockStmnt _ cb => 1 + countNodesCodeBlock cb
  | .forLoopStmnt _ attribs ini cond iter body =>
    1 + countNodesFunctionCallList attribs + countNodesStmnt ini
      + countNodesOptExpr cond + countNodesOptExpr iter
      + countNodesStmnt body
  | .whileLoopStmnt _ attribs cond body =>
    1 + countNodesFunctionCallList attribs + countNodesExpr cond
      + countNodesStmnt body
  | .doWhileLoopStmnt _ attribs body cond =>
    1 + countNodesFunctionCallList attribs + countNodesStmnt body
      + countNodesExpr cond
  | .ifStmnt _ attribs cond body els =>
    1 + countNodesFunctionCallList attribs + countNodesExpr cond
      + countNodesStmnt body + countNodesOptElseStmnt els
  | .switchStmnt _ attribs sel cases =>
    1 + countNodesFunctionCallList attribs + countNodesExpr sel
      + countNodesSwitchCaseList cases
  | .varDeclStmnt v => countNodesVarDeclStmnt v
  | .assignStmnt _ vi _ e => 1 + countNodesVarIdent vi + countNodesExpr e
  | .exprStmnt _ e => 1 + countNodesExpr e
  | .functionCallStmnt _ call => 1 + countNodesFunctionCall call
  | .returnStmnt _ e => 1 + countNodesOptExpr e
  | .structDeclStmnt _ st => 1 + countNodesStructure st
  | .ctrlTransferStmnt _ _ => 1

/-- Reachable nodes of an `ElseStmnt`. -/
def countNodesElseStmnt : ElseStmnt → Nat
  | .mk _ body => 1 + countNodesStmnt body

/-- Reachable nodes of a possibly-absent `ElseStmnt`. -/
def countNodesOptElseStmnt : Option ElseStmnt → Nat
  | none => 0
  | some e => countNodesElseStmnt e

/-- Reachable nodes of a `SwitchCase` (including its case expression). -/
def countNodesSwitchCase : SwitchCase → Nat
  | .mk _ e stmnts => 1 + countNodesOptExpr e + countNodesStmntList stmnts

/-- Reachable nodes of a list of `SwitchCase`s. -/
def countNodesSwitchCaseList : List SwitchCase → Nat
  | [] => 0
  | c :: cs => countNodesSwitchCase c + countNodesSwitchCaseList cs

/-- Reachable nodes of a statement list. -/
def countNodesStmntList : List Stmnt → Nat
  | [] => 0
  | st :: sts => countNodesStmnt st + countNodesStmntList sts

/-- Reachable nodes of a `CodeBlock`. -/
def countNodesCodeBlock : CodeBlock → Nat
  | .mk _ stmnts => 1 + countNodesStmntList stmnts

/-- Reachable nodes of a possibly-absent `CodeBlock`. -/
def countNodesOptCodeBlock : Option CodeBlock → Nat
  | none => 0
  | some cb => countNodesCodeBlock cb

/-- Reachable nodes of a global declaration (a `FunctionDecl` owns its
attributes, return type, parameters and code block). -/
def countNodesGlobalDecl : GlobalDecl → Nat
  | .functionDecl _ attribs retTy _ params _ cb =>
    1 + countNodesFunctionCallList attribs + countNodesVarType retTy
      + countNodesVarDeclStmntList params + countNodesOptCodeBlock cb
  | .uniformBufferDecl _ _ _ _ members =>
    1 + countNodesVarDeclStmntList members
  | .textureDecl _ _ _ names => 1 + names.length
  | .samplerDecl _ _ names => 1 + names.length
  | .structDecl _ st => 1 + countNodesStructure st
  | .directiveDecl _ _ => 1

/-- Reachable nodes of a list of global declarations. -/
def countNodesGlobalDeclList : List GlobalDecl → Nat
  | [] => 0
  | g :: gs => countNodesGlobalDecl g + countNodesGlobalDeclList gs

end

/-- Reachable nodes of a whole program. -/
def countNodesProgram (p : Program) : Nat :=
  1 + countNodesGlobalDeclList p.globalDecls

/-- Nodes the printer visits in a `VarSemantic`. -/
def countVisitedVarSemantic (a : VarSemantic) : Nat :=
  1 + (match a.packOffset with | some _ => 1 | none => 0)

/-- Nodes the printer visits in a list of `VarSemantic`s. -/
def countVisitedVarSemanticList : List VarSemantic → Nat
  | [] => 0
  | v :: vs => countVisitedVarSemantic v + countVisitedVarSemanticList vs

mutual

/-- Nodes the printer visits in an expression: `VisitCastExpr` skips the
operand, so only `typeExpr` is counted under a cast. -/
def countVisitedExpr : Expr → Nat
  | .listExpr _ a b => 1 + countVisitedExpr a + countVisitedExpr b
  | .literalExpr _ _ => 1
  | .typeNameExpr _ _ => 1
  | .ternaryExpr _ c i e =>
    1 + countVisitedExpr c + countVisitedExpr i + countVisitedExpr e
  | .binaryExpr _ _ l r => 1 + countVisitedExpr l + countVisitedExpr r
  | .unaryExpr _ _ e => 1 + countVisitedExpr e
  | .postUnaryExpr _ _ e => 1 + countVisitedExpr e
  | .functionCallExpr _ call => 1 + countVisitedFunctionCall call
  | .bracketExpr _ e => 1 + countVisitedExpr e
  | .castExpr _ t _ => 1 + countVisitedExpr t
  | .varAccessExpr _ vi _ ae =>
    1 + countVisitedVarIdent vi + countVisitedOptExpr ae
  | .initializerExpr _ es => 1 + countVisitedExprList es

/-- Visited nodes of a possibly-absent expression. -/
def countVisitedOptExpr : Option Expr → Nat
  | none => 0
  | some e => countVisitedExpr e

/-- Visited nodes of an expression list. -/
def countVisitedExprList : List Expr → Nat
  | [] => 0
  | e :: es => countVisitedExpr e + countVisitedExprList es

/-- Visited nodes of a `VarIdent`. -/
def countVisitedVarIdent : VarIdent → Nat
  | .mk _ _ idxs nxt =>
    1 + countVisitedExprList idxs + countVisitedOptVarIdent nxt

/-- Visited nodes of a possibly-absent `VarIdent`. -/
def countVisitedOptVarIdent : Option VarIdent → Nat
  | none => 0
  | some vi => countVisitedVarIdent vi

/-- Visited nodes of a `FunctionCall`. -/
def countVisitedFunctionCall : FunctionCall → Nat
  | .mk _ nm args => 1 + countVisitedVarIdent nm + countVisitedExprList args

/-- Visited nodes of a list of `FunctionCall`s. -/
def countVisitedFunctionCallList : List FunctionCall → Nat
  | [] => 0
  | c :: cs => countVisitedFunctionCall c + countVisitedFunctionCallList cs

/-- Visited nodes of a `VarDecl`. -/
def countVisitedVarDecl : VarDecl → Nat
  | .mk _ _ dims sems ini _ =>
    1 + countVisitedExprList dims + countVisitedVarSemanticList sems
      + countVisitedOptExpr ini

/-- Visited nodes of a list of `VarDecl`s. -/
def countVisitedVarDeclList : List VarDecl → Nat
  | [] => 0
  | v :: vs => countVisitedVarDecl v + countVisitedVarDeclList vs

/-- Visited nodes of a `Structure`. -/
def countVisitedStructure : Structure → Nat
  | .mk _ _ _ members => 1 + countVisitedVarDeclStmntList members

/-- Visited nodes of a `VarDeclStmnt`: the `varType` child is skipped by
`VisitVarDeclStmnt`. -/
def countVisitedVarDeclStmnt : VarDeclStmnt → Nat
  | .mk _ _ _ _ _ _ decls => 1 + countVisitedVarDeclList decls

/-- Visited nodes of a list of `VarDeclStmnt`s. -/
def countVisitedVarDeclStmntList : List VarDeclStmnt → Nat
  | [] => 0
  | v :: vs => countVisitedVarDeclStmnt v + countVisitedVarDeclStmntList vs

/-- Visited nodes of a statement: `VisitAssignStmnt` skips the assignment
target and `VisitSwitchCase` skips the case expression; attribute lists are
not visited by any statement visitor. -/
def countVisitedStmnt : Stmnt → Nat
  | .nullStmnt _ => 1
  | .directiveStmnt _ _ => 1
  | .codeBlockStmnt _ cb => 1 + countVisitedCodeBlock cb
  | .forLoopStmnt _ _ ini cond iter body =>
    1 + countVisitedStmnt ini + countVisitedOptExpr cond
      + countVisitedOptExpr iter + countVisitedStmnt body
  | .whileLoopStmnt _ _ cond body =>
    1 + countVisitedExpr cond + countVisitedStmnt body
  | .doWhileLoopStmnt _ _ body cond =>
    1 + countVisitedStmnt body + countVisitedExpr cond
  | .ifStmnt _ _ cond body els =>
    1 + countVisitedExpr cond + countVisitedStmnt body
      + countVisitedOptElseStmnt els
  | .switchStmnt _ _ sel cases =>
    1 + countVisitedExpr sel + countVisitedSwitchCaseList cases
  | .varDeclStmnt v => countVisitedVarDeclStmnt v
  | .assignStmnt _ _ _ e => 1 + countVisitedExpr e
  | .exprStmnt _ e => 1 + countVisitedExpr e
  | .functionCallStmnt _ call => 1 + countVisitedFunctionCall call
  | .returnStmnt _ e => 1 + countVisitedOptExpr e
  | .structDeclStmnt _ st => 1 + countVisitedStructure st
  | .ctrlTransferStmnt _ _ => 1

/-- Visited nodes of an `ElseStmnt`. -/
def countVisitedElseStmnt : ElseStmnt → Nat
  | .mk _ body => 1 + countVisitedStmnt body

/-- Visited nodes of a possibly-absent `ElseStmnt`. -/
def countVisitedOptElseStmnt : Option ElseStmnt → Nat
  | none => 0
  | some e => countVisitedElseStmnt e

/-- Visited nodes of a `SwitchCase` (statements only). -/
def countVisitedSwitchCase : SwitchCase → Nat
  | .mk _ _ stmnts => 1 + countVisitedStmntList stmnts

/-- Visited nodes of a list of `SwitchCase`s. -/
def countVisitedSwitchCaseList : List SwitchCase → Nat
  | [] => 0
  | c :: cs => countVisitedSwitchCase c + countVisitedSwitchCaseList cs

/-- Visited nodes of a statement list. -/
def countVisitedStmntList : List Stmnt → Nat
  | [] => 0
  | st :: sts => countVisitedStmnt st + countVisitedStmntList sts

/-- Visited nodes of a `CodeBlock`. -/
def countVisitedCodeBlock : CodeBlock → Nat
  | .mk _ stmnts => 1 + countVisitedStmntList stmnts

/-- Visited nodes of a possibly-absent `CodeBlock`. -/
def countVisitedOptCodeBlock : Option CodeBlock → Nat
  | none => 0
  | some cb => countVisitedCodeBlock cb

/-- Visited nodes of a global declaration: `VisitFunctionDecl` visits the
attributes and the code block only. -/
def countVisitedGlobalDecl : GlobalDecl → Nat
  | .functionDecl _ attribs _ _ _ _ cb =>
    1 + countVisitedFunctionCallList attribs + countVisitedOptCodeBlock cb
  | .uniformBufferDecl _ _ _ _ members =>
    1 + countVisitedVarDeclStmntList members
  | .textureDecl _ _ _ names => 1 + names.length
  | .samplerDecl _ _ names => 1 + names.length
  | .structDecl _ st => 1 + countVisitedStructure st
  | .directiveDecl _ _ => 1

/-- Visited nodes of a list of global declarations. -/
def countVisitedGlobalDeclList : List GlobalDecl → Nat
  | [] => 0
  | g :: gs => countVisitedGlobalDecl g + countVisitedGlobalDeclList gs

end

/-- Nodes the printer visits in a whole program. -/
def countVisitedProgram (p : Program) : Nat :=
  1 + countVisitedGlobalDeclList p.globalDecls

/-! ## Concrete token streams and expected results

Token lists as the scanner would produce them for small HLSL fragments,
used to instantiate the theorems below on concrete runs. -/

/-- Build a token at line `ln`, column `c`. -/
def mkTok (ty : Tokens) (sp : String) (ln c : Nat) : Token :=
  { type := ty, spell := sp, pos := ⟨ln, c⟩ }

/-- Tokens of `void f(float x);`. -/
def c1Toks : List Token :=
  [mkTok .Void "void" 1 1, mkTok .Ident "f" 1 6, mkTok .LBracket "(" 1 7,
   mkTok .ScalarType "float" 1 8, mkTok .Ident "x" 1 14,
   mkTok .RBracket ")" 1 15, mkTok .Semicolon ";" 1 16]

/-- The AST of `void f(float x);`. -/
def c1Prog : Program :=
  { pos := ⟨1, 1⟩,
    globalDecls :=
      [.functionDecl ⟨1, 1⟩ [] (.mk ⟨1, 1⟩ "void" none none) "f"
        [.mk ⟨1, 8⟩ 0 "" [] [] (.mk ⟨1, 8⟩ "float" none none)
          [.mk ⟨1, 14⟩ "x" [] [] none none]]
        "" none] }

/-- Tokens of `void f() { struct S { float a; } v; }`. -/
def c2Toks : List Token :=
  [mkTok .Void "void" 1 1, mkTok .Ident "f" 1 6, mkTok .LBracket "(" 1 7,
   mkTok .RBracket ")" 1 8, mkTok .LCurly "\x7b" 1 10,
   mkTok .Struct "struct" 2 3, mkTok .Ident "S" 2 10, mkTok .LCurly "\x7b" 2 12,
   mkTok .ScalarType "float" 2 14, mkTok .Ident "a" 2 20,
   mkTok .Semicolon ";" 2 21, mkTok .RCurly "\x7d" 2 23, mkTok .Ident "v" 2 25,
   mkTok .Semicolon ";" 2 26, mkTok .RCurly "\x7d" 3 1]

/-- Tokens of the statement `struct { float a; } v;` (anonymous structure). -/
def c3Toks : List Token :=
  [mkTok .Struct "struct" 1 1, mkTok .LCurly "\x7b" 1 8,
   mkTok .ScalarType "float" 1 10, mkTok .Ident "a" 1 16,
   mkTok .Semicolon ";" 1 17, mkTok .RCurly "\x7d" 1 19, mkTok .Ident "v" 1 21,
   mkTok .Semicolon ";" 1 22]

/-- The program (or null) a parse run produced. -/
def progOfResult : M (Program × PState) → Option Program
  | .ok (p, _) => some p
  | .error _ => none

/-- Allocation id of the first parameter of the first function declaration,
paired with the `declStmntRef` fields of that parameter's declarators. -/
def firstParamInfo (p : Program) : Option (Nat × List (Option Nat)) :=
  match p.globalDecls with
  | .functionDecl _ _ _ _ (param :: _) _ _ :: _ =>
      some (param.id, param.varDecls.map VarDecl.declStmntRef)
  | _ => none

/-- The `varType` of the first statement (a variable declaration) of the
first function's body. -/
def firstBodyVarType (p : Program) : Option VarType :=
  match p.globalDecls with
  | .functionDecl _ _ _ _ _ _ (some (.mk _ (.varDeclStmnt v :: _))) :: _ =>
      some v.varType
  | _ => none

/-- Tokens of the statement `float x;`. -/
def w1Toks : List Token :=
  [mkTok .ScalarType "float" 1 1, mkTok .Ident "x" 1 7,
   mkTok .Semicolon ";" 1 8]

/-- Declarator produced for `float x;` (decorated with its statement). -/
def w1Vd : VarDecl := .mk ⟨1, 7⟩ "x" [] [] none (some 0)

/-- Statement produced for `float x;`. -/
def w1Out : VarDeclStmnt :=
  .mk ⟨1, 1⟩ 0 "" [] [] (.mk ⟨1, 1⟩ "float" none none) [w1Vd]

/-- Tokens of the statement `foo bar;`. -/
def w2Toks : List Token :=
  [mkTok .Ident "foo" 1 1, mkTok .Ident "bar" 1 5, mkTok .Semicolon ";" 1 8]

/-- Declarator produced for `foo bar;` (decorated with its statement). -/
def w2Vd : VarDecl := .mk ⟨1, 5⟩ "bar" [] [] none (some 0)

/-- Statement produced for `foo bar;`. -/
def w2Out : VarDeclStmnt :=
  .mk ⟨1, 5⟩ 0 "" [] [] (.mk ⟨1, 5⟩ "foo" none none) [w2Vd]

/-- Tokens of the parameter `float x`. -/
def w3Toks : List Token :=
  [mkTok .ScalarType "float" 1 1, mkTok .Ident "x" 1 7]

/-- Declarator produced for the parameter `float x` (undecorated). -/
def w3Vd : VarDecl := .mk ⟨1, 7⟩ "x" [] [] none none

/-- Parameter statement produced for `float x`. -/
def w3Out : VarDeclStmnt :=
  .mk ⟨1, 1⟩ 0 "" [] [] (.mk ⟨1, 1⟩ "float" none none) [w3Vd]

/-- Tokens of the statement `struct S { float a; } v;`. -/
def w4Toks : List Token :=
  [mkTok .Struct "struct" 1 1, mkTok .Ident "S" 1 8, mkTok .LCurly "\x7b" 1 10,
   mkTok .ScalarType "float" 1 12, mkTok .Ident "a" 1 18,
   mkTok .Semicolon ";" 1 19, mkTok .RCurly "\x7d" 1 21, mkTok .Ident "v" 1 23,
   mkTok .Semicolon ";" 1 24]

/-- The structure `S { float a; }` with allocation id 0. -/
def w4Struct : Structure :=
  .mk ⟨1, 1⟩ 0 "S"
    [.mk ⟨1, 12⟩ 1 "" [] [] (.mk ⟨1, 12⟩ "float" none none)
      [.mk ⟨1, 18⟩ "a" [] [] none (some 1)]]

/-- Declarator produced for `struct S { float a; } v;` (undecorated). -/
def w4Vd : VarDecl := .mk ⟨1, 23⟩ "v" [] [] none none

/-- Statement produced for `struct S { float a; } v;`: `structType` is set
but `symbolRef` is not. -/
def w4Out : VarDeclStmnt :=
  .mk ⟨1, 23⟩ 2 "" [] [] (.mk ⟨1, 23⟩ "" (some w4Struct) none) [w4Vd]

/-- Tokens of the type position `struct S { float a; }`. -/
def w5Toks : List Token :=
  [mkTok .Struct "struct" 1 1, mkTok .Ident "S" 1 8, mkTok .LCurly "\x7b" 1 10,
   mkTok .ScalarType "float" 1 12, mkTok .Ident "a" 1 18,
   mkTok .Semicolon ";" 1 19, mkTok .RCurly "\x7d" 1 21]

/-- Tokens of the statement `foo();`. -/
def c4Toks : List Token :=
  [mkTok .Ident "foo" 1 1, mkTok .LBracket "(" 1 4, mkTok .RBracket ")" 1 5,
   mkTok .Semicolon ";" 1 6]

/-- The identifier parsed at the head of `foo();`. -/
def c4Vi : VarIdent := .mk ⟨1, 1⟩ "foo" [] none

/-- Parser state after the identifier of `foo();`. -/
def c4S1 : PState :=
  { toks := [mkTok .LBracket "(" 1 4, mkTok .RBracket ")" 1 5,
      mkTok .Semicolon ";" 1 6],
    nextId := 0 }

/-- The statement parsed from `foo();`. -/
def c4Out : Stmnt := .functionCallStmnt ⟨1, 4⟩ (.mk ⟨1, 4⟩ c4Vi [])

/-- Tokens of the expression `(float)x`. -/
def c5aToks : List Token :=
  [mkTok .LBracket "(" 1 1, mkTok .ScalarType "float" 1 2,
   mkTok .RBracket ")" 1 7, mkTok .Ident "x" 1 8]

/-- The expression inside the brackets of `(float)x`. -/
def c5aInner : Expr := .typeNameExpr ⟨1, 7⟩ "float"

/-- Parser state after the inner expression of `(float)x`. -/
def c5aS1 : PState :=
  { toks := [mkTok .RBracket ")" 1 7, mkTok .Ident "x" 1 8], nextId := 0 }

/-- Tokens of the expression `(x)+1`. -/
def c5bToks : List Token :=
  [mkTok .LBracket "(" 1 1, mkTok .Ident "x" 1 2, mkTok .RBracket ")" 1 3,
   mkTok .BinaryOp "+" 1 4, mkTok .IntLiteral "1" 1 5]

/-- The expression inside the brackets of `(x)+1`. -/
def c5bInner : Expr :=
  .varAccessExpr ⟨1, 3⟩ (.mk ⟨1, 2⟩ "x" [] none) "" none

/-- Parser state after the inner expression of `(x)+1`. -/
def c5bS1 : PState :=
  { toks := [mkTok .RBracket ")" 1 3, mkTok .BinaryOp "+" 1 4,
      mkTok .IntLiteral "1" 1 5],
    nextId := 0 }

/-- Tokens of the input that fails to scan-free parse for `C6`: a stray
closing brace. -/
def c6Bad : List Token := [mkTok .RCurly "\x7d" 1 1]

/-- The parse error raised on `c6Bad`. -/
def c6Err : PErr :=
  .parseErr "syntax error (1:1) : unexpected token '\x7d' (expected type specifier)"

/-- Tokens of the expression `a + b * c`. -/
def c7Toks : List Token :=
  [mkTok .Ident "a" 1 1, mkTok .BinaryOp "+" 1 3, mkTok .Ident "b" 1 5,
   mkTok .BinaryOp "*" 1 7, mkTok .Ident "c" 1 9]

/-- Primary `a` of `a + b * c`. -/
def c7A : Expr := .varAccessExpr ⟨1, 3⟩ (.mk ⟨1, 1⟩ "a" [] none) "" none

/-- State after `a`. -/
def c7SA : PState :=
  { toks := [mkTok .BinaryOp "+" 1 3, mkTok .Ident "b" 1 5,
      mkTok .BinaryOp "*" 1 7, mkTok .Ident "c" 1 9],
    nextId := 0 }

/-- Primary `b` of `a + b * c`. -/
def c7B : Expr := .varAccessExpr ⟨1, 7⟩ (.mk ⟨1, 5⟩ "b" [] none) "" none

/-- State after `b`. -/
def c7SB : PState :=
  { toks := [mkTok .BinaryOp "*" 1 7, mkTok .Ident "c" 1 9], nextId := 0 }

/-- Primary `c` of `a + b * c`. -/
def c7C : Expr := .varAccessExpr ⟨0, 0⟩ (.mk ⟨1, 9⟩ "c" [] none) "" none

/-- State after `c`. -/
def c7SC : PState := { toks := [], nextId := 0 }

/-- Input-modifier tokens `in out` of a parameter. -/
def c8Mods : List Token :=
  [mkTok .InputModifier "in" 1 1, mkTok .InputModifier "out" 1 4]

/-- Remaining parameter tokens `float x`. -/
def c8Rest : List Token :=
  [mkTok .ScalarType "float" 1 8, mkTok .Ident "x" 1 14]

/-- Type parsed from `float x`. -/
def c8Rv : VarType × PState :=
  (.mk ⟨1, 8⟩ "float" none none,
   { toks := [mkTok .Ident "x" 1 14], nextId := 1 })

/-- Declarator parsed from `float x`. -/
def c8Rd : VarDecl × PState :=
  (.mk ⟨1, 14⟩ "x" [] [] none none, { toks := [], nextId := 1 })

/-- Tokens of the attribute `[unroll]`. -/
def c10Attr : List Token :=
  [mkTok .LParen "[" 1 1, mkTok .Ident "unroll" 1 2, mkTok .RParen "]" 1 8]

/-- The `FunctionCall` node of the attribute `[unroll]`. -/
def c10Fc : FunctionCall := .mk ⟨1, 1⟩ (.mk ⟨1, 2⟩ "unroll" [] none) []

/-- Tokens of the statement `return;`. -/
def c10RestA : List Token :=
  [mkTok .Return "return" 1 10, mkTok .Semicolon ";" 1 16]

/-- Tokens of the statement `for(;;);`. -/
def c10RestB : List Token :=
  [mkTok .For "for" 1 10, mkTok .LBracket "(" 1 13, mkTok .Semicolon ";" 1 14,
   mkTok .Semicolon ";" 1 15, mkTok .RBracket ")" 1 16,
   mkTok .Semicolon ";" 1 17]

/-- The for-loop statement parsed from `[unroll] for(;;);`. -/
def c10ForOut : Stmnt × PState :=
  (.forLoopStmnt ⟨1, 10⟩ [c10Fc] (.nullStmnt ⟨1, 14⟩) none none
    (.nullStmnt ⟨1, 17⟩),
   { toks := [], nextId := 0 })

end HT

/-! ## Theorems

Helper lemmas about individual productions, followed by the settled claims
C1 to C10: each claim's theorem, and where the claim fails on the code, a
counterexample at a concrete input together with the amended statement. -/

set_option linter.unusedVariables false
set_option linter.unnecessarySeqFocus false

namespace HT

/-- Setting the back-reference stores the given allocation id. -/
theorem setDeclStmntRef_declStmntRef (vd : VarDecl) (i : Nat) :
    (vd.setDeclStmntRef i).declStmntRef = some i := by
  cases vd; rfl

/-- A declarator fresh from `ParseVarDecl` carries a null back-reference. -/
theorem parseVarDecl_declStmntRef (f : Nat) (s : PState)
    (r : VarDecl × PState) (h : parseVarDecl f s = .ok r) :
    r.1.declStmntRef = none := by
  cases f with
  | zero => simp [parseVarDecl] at h
  | succ f =>
    simp only [parseVarDecl, errUnexpected, errUnexpectedHint, errMsg,
      Bind.bind, Except.bind] at h
    repeat' split at h
    all_goals
      first
      | exact Except.noConfusion h
      | (simp only [Except.ok.injEq] at h
         subst h
         rfl)

/-- All declarators fresh from `ParseVarDeclList` carry null
back-references. -/
theorem parseVarDeclList_refs (f : Nat) (s : PState)
    (r : List VarDecl × PState) (h : parseVarDeclList f s = .ok r) :
    ∀ vd ∈ r.1, vd.declStmntRef = none := by
  induction f generalizing s r with
  | zero => simp [parseVarDeclList] at h
  | succ f ih =>
    simp only [parseVarDeclList, Bind.bind, Except.bind] at h
    repeat' split at h
    all_goals
      first
      | exact Except.noConfusion h
      | (simp only [Except.ok.injEq] at h
         subst h
         intro vd hvd
         simp only [List.mem_cons, List.mem_singleton] at hvd
         rcases hvd with h3 | h3
         · subst h3
           exact parseVarDecl_declStmntRef f _ _ (by assumption)
         · exact ih _ _ (by assumption) _ h3)
      | (simp only [Except.ok.injEq] at h
         subst h
         intro vd hvd
         simp only [List.mem_singleton] at hvd
         subst hvd
         exact parseVarDecl_declStmntRef f _ _ (by assumption))

/-- An `ParseExprStmnt` result is an expression statement, hence neither a
variable-declaration nor a function-call statement. -/
theorem parseExprStmnt_shape (f : Nat) (vi : Option VarIdent) (s : PState)
    (r : Stmnt × PState) (h : parseExprStmnt f vi s = .ok r) :
    r.1.isVarDeclStmnt = false ∧ r.1.isFunctionCallStmnt = false := by
  cases f with
  | zero => simp [parseExprStmnt] at h
  | succ f =>
    simp only [parseExprStmnt, Bind.bind, Except.bind] at h
    repeat' split at h
    all_goals
      first
      | exact Except.noConfusion h
      | (simp only [Except.ok.injEq] at h
         subst h
         exact ⟨rfl, rfl⟩)

/-- When `ParseFunctionCall` is handed a callee identifier, the built node
keeps it as its `name`. -/
theorem parseFunctionCall_name (f : Nat) (vi : VarIdent) (s : PState)
    (r : FunctionCall × PState) (h : parseFunctionCall f (some vi) s = .ok r) :
    r.1.name = vi := by
  cases f with
  | zero => simp [parseFunctionCall] at h
  | succ f =>
    simp only [parseFunctionCall, Bind.bind, Except.bind] at h
    repeat' split at h
    all_goals
      first
      | exact Except.noConfusion h
      | (simp only [Except.ok.injEq] at h
         subst h
         rfl)

/-- `ParseVarDeclStmnt` decorates every declarator with the statement's own
allocation id. -/
theorem parseVarDeclStmnt_refs (f : Nat) (s : PState)
    (r : VarDeclStmnt × PState) (h : parseVarDeclStmnt f s = .ok r) :
    ∀ vd ∈ r.1.varDecls, vd.declStmntRef = some r.1.id := by
  cases f with
  | zero => simp [parseVarDeclStmnt] at h
  | succ f =>
    simp only [parseVarDeclStmnt, errUnexpected, errMsg,
      Bind.bind, Except.bind] at h
    repeat' split at h
    all_goals
      first
      | exact Except.noConfusion h
      | (simp only [Except.ok.injEq] at h
         subst h
         intro vd hvd
         simp only [VarDeclStmnt.varDecls, List.mem_map] at hvd
         obtain ⟨y, _, hy⟩ := hvd
         subst hy
         exact setDeclStmntRef_declStmntRef y _)

/-- `ParseVarDeclStmnt` never populates `symbolRef` on the type it builds,
not even in its `struct` break case. -/
theorem parseVarDeclStmnt_symbolRef (f : Nat) (s : PState)
    (r : VarDeclStmnt × PState) (h : parseVarDeclStmnt f s = .ok r) :
    r.1.varType.symbolRef = none := by
  cases f with
  | zero => simp [parseVarDeclStmnt] at h
  | succ f =>
    simp only [parseVarDeclStmnt, errUnexpected, errMsg,
      Bind.bind, Except.bind] at h
    repeat' split at h
    all_goals
      first
      | exact Except.noConfusion h
      | (simp only [Except.ok.injEq] at h
         subst h
         rfl)

/-- `ParseVarType` sets `symbolRef` exactly to the address of the inline
structure type when there is one. -/
theorem parseVarType_symbolRef (f : Nat) (pv : Bool) (s : PState)
    (r : VarType × PState) (h : parseVarType f pv s = .ok r) :
    r.1.symbolRef = r.1.structType.map Structure.id := by
  cases f with
  | zero => simp [parseVarType] at h
  | succ f =>
    simp only [parseVarType, errUnexpected, errUnexpectedHint, errMsg,
      Bind.bind, Except.bind] at h
    repeat' split at h
    all_goals
      first
      | exact Except.noConfusion h
      | (simp only [Except.ok.injEq] at h
         subst h
         rfl)

/-- When `ParseStructDeclOrVarDeclStmnt` produces a variable-declaration
statement, its declarators keep null back-references and its type keeps a
null `symbolRef`. -/
theorem parseStructDeclOrVarDeclStmnt_shape (f : Nat) (s : PState)
    (r : Stmnt × PState) (h : parseStructDeclOrVarDeclStmnt f s = .ok r)
    (vds : VarDeclStmnt) (hv : r.1 = .varDeclStmnt vds) :
    (∀ vd ∈ vds.varDecls, vd.declStmntRef = none)
      ∧ vds.varType.symbolRef = none := by
  cases f with
  | zero => simp [parseStructDeclOrVarDeclStmnt] at h
  | succ f =>
    simp only [parseStructDeclOrVarDeclStmnt, Bind.bind, Except.bind] at h
    repeat' split at h
    all_goals
      first
      | exact Except.noConfusion h
      | (simp only [Except.ok.injEq] at h
         subst h
         first
         | exact absurd hv (fun hc => Stmnt.noConfusion hc)
         | (injection hv with hv2
            subst hv2
            refine ⟨?_, rfl⟩
            intro vd hvd
            exact parseVarDeclList_refs f _ _ (by assumption) _ hvd))

/-- When the identifier-led statement parser produces a
variable-declaration statement, it decorates every declarator with the
statement's allocation id. -/
theorem parseVarDeclOrAssign_shape (f : Nat) (s : PState)
    (r : Stmnt × PState)
    (h : parseVarDeclOrAssignOrFunctionCallStmnt f s = .ok r)
    (vds : VarDeclStmnt) (hv : r.1 = .varDeclStmnt vds) :
    ∀ vd ∈ vds.varDecls, vd.declStmntRef = some vds.id := by
  cases f with
  | zero => simp [parseVarDeclOrAssignOrFunctionCallStmnt] at h
  | succ f =>
    simp only [parseVarDeclOrAssignOrFunctionCallStmnt, errUnexpectedHint,
      errMsg, Bind.bind, Except.bind] at h
    repeat' split at h
    all_goals
      first
      | exact Except.noConfusion h
      | (simp only [Except.ok.injEq] at h
         subst h
         first
         | exact absurd hv (fun hc => Stmnt.noConfusion hc)
         | (injection hv with hv2
            subst hv2
            intro vd hvd
            simp only [VarDeclStmnt.varDecls, List.mem_map] at hvd
            obtain ⟨y, _, hy⟩ := hvd
            subst hy
            exact setDeclStmntRef_declStmntRef y _))
      | (rcases parseExprStmnt_shape _ _ _ _ h with ⟨h1, _⟩
         rw [hv] at h1
         exact absurd h1 (by simp [Stmnt.isVarDeclStmnt]))

/-- `ParseForLoopStmnt` stores the handed attribute list on its node. -/
theorem parseForLoopStmnt_attribs (f : Nat) (attribs : List FunctionCall)
    (s : PState) (r : Stmnt × PState)
    (h : parseForLoopStmnt f attribs s = .ok r) : r.1.attribs = attribs := by
  cases f with
  | zero => simp [parseForLoopStmnt] at h
  | succ f =>
    simp only [parseForLoopStmnt, Bind.bind, Except.bind] at h
    repeat' split at h
    all_goals
      first
      | exact Except.noConfusion h
      | (simp only [Except.ok.injEq] at h
         subst h
         rfl)

/-- `ParseWhileLoopStmnt` stores the handed attribute list on its node. -/
theorem parseWhileLoopStmnt_attribs (f : Nat) (attribs : List FunctionCall)
    (s : PState) (r : Stmnt × PState)
    (h : parseWhileLoopStmnt f attribs s = .ok r) : r.1.attribs = attribs := by
  cases f with
  | zero => simp [parseWhileLoopStmnt] at h
  | succ f =>
    simp only [parseWhileLoopStmnt, Bind.bind, Except.bind] at h
    repeat' split at h
    all_goals
      first
      | exact Except.noConfusion h
      | (simp only [Except.ok.injEq] at h
         subst h
         rfl)

/-- `ParseDoWhileLoopStmnt` stores the handed attribute list on its node. -/
theorem parseDoWhileLoopStmnt_attribs (f : Nat) (attribs : List FunctionCall)
    (s : PState) (r : Stmnt × PState)
    (h : parseDoWhileLoopStmnt f attribs s = .ok r) :
    r.1.attribs = attribs := by
  cases f with
  | zero => simp [parseDoWhileLoopStmnt] at h
  | succ f =>
    simp only [parseDoWhileLoopStmnt, Bind.bind, Except.bind] at h
    repeat' split at h
    all_goals
      first
      | exact Except.noConfusion h
      | (simp only [Except.ok.injEq] at h
         subst h
         rfl)

/-- `ParseIfStmnt` stores the handed attribute list on its node. -/
theorem parseIfStmnt_attribs (f : Nat) (attribs : List FunctionCall)
    (s : PState) (r : Stmnt × PState)
    (h : parseIfStmnt f attribs s = .ok r) : r.1.attribs = attribs := by
  cases f with
  | zero => simp [parseIfStmnt] at h
  | succ f =>
    simp only [parseIfStmnt, Bind.bind, Except.bind] at h
    repeat' split at h
    all_goals
      first
      | exact Except.noConfusion h
      | (simp only [Except.ok.injEq] at h
         subst h
         rfl)

/-- `ParseSwitchStmnt` stores the handed attribute list on its node. -/
theorem parseSwitchStmnt_attribs (f : Nat) (attribs : List FunctionCall)
    (s : PState) (r : Stmnt × PState)
    (h : parseSwitchStmnt f attribs s = .ok r) : r.1.attribs = attribs := by
  cases f with
  | zero => simp [parseSwitchStmnt] at h
  | succ f =>
    simp only [parseSwitchStmnt, Bind.bind, Except.bind] at h
    repeat' split at h
    all_goals
      first
      | exact Except.noConfusion h
      | (simp only [Except.ok.injEq] at h
         subst h
         rfl)

/-- The parameter-modifier loop over a run of `InputModifier` tokens keeps
overwriting the input modifier, so the last spelling wins, and stops at the
first non-modifier token. -/
theorem parseParamModifiers_allInput (mods rest : List Token)
    (im : String) (tmods smods : List String)
    (hAll : ∀ tok ∈ mods, tok.type = Tokens.InputModifier)
    (hStop : (rest.headD eosToken).type ≠ Tokens.InputModifier
      ∧ (rest.headD eosToken).type ≠ Tokens.TypeModifier
      ∧ (rest.headD eosToken).type ≠ Tokens.StorageModifier) :
    parseParamModifiers (mods ++ rest) im tmods smods
      = ((mods.map Token.spell).getLastD im, tmods, smods, rest) := by
  induction mods generalizing im with
  | nil =>
    cases rest with
    | nil => simp [parseParamModifiers]
    | cons t ts =>
      obtain ⟨h1, h2, h3⟩ := hStop
      simp only [List.headD_cons] at h1 h2 h3
      simp [parseParamModifiers, h1, h2, h3]
  | cons t mt ih =>
    have ht : t.type = Tokens.InputModifier := hAll t (List.mem_cons_self t mt)
    have hrec := ih t.spell (fun tok htok => hAll tok (List.mem_cons_of_mem t htok))
    have hstep : parseParamModifiers ((t :: mt) ++ rest) im tmods smods
        = parseParamModifiers (mt ++ rest) t.spell tmods smods := by
      simp [parseParamModifiers, ht]
    rw [hstep, hrec, List.map_cons, List.getLastD_cons]

/-- C4: a statement that begins with an identifier token whose parsed
`VarIdent` is immediately followed by a `(` token parses (when it parses at
all) to a `FunctionCallStmnt` whose `call.name` is the parsed identifier,
and never to a `VarDeclStmnt`. -/
theorem C4_theorem (f : Nat) (s : PState) (vi : VarIdent) (s1 : PState)
    (r : Stmnt × PState)
    (hIdent : (headT s).type = Tokens.Ident)
    (hVarIdent : parseVarIdent f s = .ok (vi, s1))
    (hLBracket : (headT s1).type = Tokens.LBracket)
    (hRun : parseStmnt (f+3) s = .ok r) :
    r.1.isFunctionCallStmnt = true ∧ r.1.isVarDeclStmnt = false
      ∧ r.1.callName = some vi := by
  have hNotLParen : ¬ (headT s).type = Tokens.LParen := by
    rw [hIdent]; intro hc; cases hc
  simp only [parseStmnt, if_neg hNotLParen, Bind.bind, Except.bind] at hRun
  simp only [parseStmntAfterAttribs, hIdent] at hRun
  simp only [parseVarDeclOrAssignOrFunctionCallStmnt, hVarIdent, hLBracket,
    Bind.bind, Except.bind, if_pos] at hRun
  cases hCall : parseFunctionCall f (some vi) s1 with
  | error e =>
    rw [hCall] at hRun
    exact Except.noConfusion hRun
  | ok v =>
    rw [hCall] at hRun
    simp only [Except.bind] at hRun
    cases hSemi : accept Tokens.Semicolon v.2 with
    | error e =>
      rw [hSemi] at hRun
      exact Except.noConfusion hRun
    | ok w =>
      rw [hSemi] at hRun
      simp only [Except.bind, Except.ok.injEq] at hRun
      subst hRun
      refine ⟨rfl, rfl, ?_⟩
      simp only [Stmnt.callName]
      rw [parseFunctionCall_name f vi s1 v hCall]

/-- C5: after consuming `( E )` inside a primary expression, the parser
builds a `CastExpr` with `typeExpr = E` if and only if a primary expression
can start at the current token and `E` is a `TypeNameExpr` or a
`VarAccessExpr` with null `assignExpr`; in every other case it builds a
`BracketExpr` wrapping `E`. -/
theorem C5_theorem (f : Nat) (s : PState) (e : Expr) (s1 : PState)
    (hL : (headT s).type = Tokens.LBracket)
    (hInner : parseExpr f true none (advanceSt s) = .ok (e, s1))
    (hR : (headT s1).type = Tokens.RBracket) :
    ((isPrimaryExpr (advanceSt s1)
        && (e.isTypeNameExpr || e.isVarAccessNoAssign)) = true →
      parseBracketOrCastExpr (f+1) s
        = Except.bind (parsePrimaryExpr f (advanceSt s1))
            (fun x => .ok (.castExpr (headT (advanceSt s1)).pos e x.1, x.2)))
  ∧ ((isPrimaryExpr (advanceSt s1)
        && (e.isTypeNameExpr || e.isVarAccessNoAssign)) = false →
      parseBracketOrCastExpr (f+1) s
        = .ok (.bracketExpr (headT (advanceSt s1)).pos e, advanceSt s1)) := by
  have hacc : accept Tokens.LBracket s = .ok (headT s, advanceSt s) := by
    simp [accept, hL, acceptIt]
  have hacc2 : accept Tokens.RBracket s1 = .ok (headT s1, advanceSt s1) := by
    simp [accept, hR, acceptIt]
  constructor
  · intro hc
    simp only [parseBracketOrCastExpr, hacc, Bind.bind, Except.bind, hInner,
      hacc2, hc, if_true]
  · intro hc
    simp only [parseBracketOrCastExpr, hacc, Bind.bind, Except.bind, hInner,
      hacc2, hc, Bool.false_eq_true, if_false]

/-- C7: binary operators parse right-associatively with no precedence: for
a token sequence `a op1 b op2 c` of primaries and binary operators, the
result is `BinaryExpr(op1, a, BinaryExpr(op2, b, c))`; the tree encodes the
input order. -/
theorem C7_theorem (m : Nat) (allowComma : Bool) (s sa sb sc : PState)
    (a b c : Expr)
    (h1 : parsePrimaryExpr (m+2) s = .ok (a, sa))
    (h2 : (headT sa).type = Tokens.BinaryOp)
    (h3 : parsePrimaryExpr (m+1) (advanceSt sa) = .ok (b, sb))
    (h4 : (headT sb).type = Tokens.BinaryOp)
    (h5 : parsePrimaryExpr m (advanceSt sb) = .ok (c, sc))
    (h6 : (headT sc).type ≠ Tokens.UnaryOp)
    (h7 : (headT sc).type ≠ Tokens.BinaryOp)
    (h8 : (headT sc).type ≠ Tokens.TernaryOp)
    (h9 : (headT sc).type ≠ Tokens.Comma) :
    parseExpr (m+3) allowComma none s
      = .ok (.binaryExpr (headT sa).pos (headT sa).spell a
          (.binaryExpr (headT sb).pos (headT sb).spell b c), sc) := by
  simp [parseExpr, Bind.bind, Except.bind, h1, h2, h3, h4, h5, h6, h7,
    h8, h9, acceptIt]

/-- C8: a parameter carrying more than one `InputModifier` token is
accepted without error, and the resulting `VarDeclStmnt.inputModifier` is
the spelling of the last input modifier in source order. -/
theorem C8_theorem (f : Nat) (mods rest : List Token) (n : Nat)
    (rv : VarType × PState) (rd : VarDecl × PState)
    (hTwo : 2 ≤ mods.length)
    (hAll : ∀ tok ∈ mods, tok.type = Tokens.InputModifier)
    (hStop : ((rest.headD eosToken).type ≠ Tokens.InputModifier)
      ∧ ((rest.headD eosToken).type ≠ Tokens.TypeModifier)
      ∧ ((rest.headD eosToken).type ≠ Tokens.StorageModifier))
    (hVt : parseVarType f false { toks := rest, nextId := n+1 } = .ok rv)
    (hVd : parseVarDecl f rv.2 = .ok rd) :
    parseParameter (f+1) { toks := mods ++ rest, nextId := n }
      = .ok (.mk (headT { toks := mods ++ rest, nextId := n }).pos n
          ((mods.map Token.spell).getLastD "") [] [] rv.1 [rd.1], rd.2) := by
  have hloop := parseParamModifiers_allInput mods rest "" [] [] hAll hStop
  simp [parseParameter, makeId, hloop, hVt, hVd, Bind.bind, Except.bind]

/-- The statement dispatch ignores the attribute list for every statement
kind other than `for`, `while`, `do`, `if` and `switch`. -/
theorem parseStmntAfterAttribs_congr (f : Nat) (attribs : List FunctionCall)
    (s : PState)
    (hNot : (headT s).type ∉
      ([.For, .While, .Do, .If, .Switch] : List Tokens)) :
    parseStmntAfterAttribs f attribs s = parseStmntAfterAttribs f [] s := by
  cases f with
  | zero => rfl
  | succ f =>
    simp only [parseStmntAfterAttribs]
    cases htype : (headT s).type <;> try rfl
    all_goals (exfalso; rw [htype] at hNot; simp at hNot)

/-- C10: a parsed attribute list is attached to the resulting statement
node only for `for`, `while`, `do-while`, `if` and `switch` statements; for
every other statement kind the attributes are accepted but silently
discarded — the parse result is identical to parsing without them. -/
theorem C10_theorem (f : Nat) (attrToks restToks : List Token) (n : Nat)
    (attribs : List FunctionCall)
    (hFirst : (headT { toks := attrToks ++ restToks, nextId := n }).type
      = Tokens.LParen)
    (hAttr : parseAttributeList f { toks := attrToks ++ restToks, nextId := n }
        = .ok (attribs, { toks := restToks, nextId := n }))
    (hRest : (headT { toks := restToks, nextId := n }).type ≠ Tokens.LParen) :
    ((headT { toks := restToks, nextId := n }).type ∉
        ([.For, .While, .Do, .If, .Switch] : List Tokens) →
      parseStmnt (f+1) { toks := attrToks ++ restToks, nextId := n }
        = parseStmnt (f+1) { toks := restToks, nextId := n })
  ∧ (∀ r, parseStmnt (f+1) { toks := attrToks ++ restToks, nextId := n }
        = .ok r →
      (headT { toks := restToks, nextId := n }).type ∈
          ([.For, .While, .Do, .If, .Switch] : List Tokens) →
      r.1.attribs = attribs) := by
  constructor
  · intro hNot
    simp only [parseStmnt, Bind.bind, Except.bind, hFirst, hAttr,
      if_pos, if_neg hRest, eq_self_iff_true, ite_true]
    exact parseStmntAfterAttribs_congr f attribs _ hNot
  · intro r hRun hIn
    simp only [parseStmnt, Bind.bind, Except.bind, hFirst, hAttr,
      if_pos, eq_self_iff_true, ite_true] at hRun
    cases f with
    | zero => simp [parseStmntAfterAttribs] at hRun
    | succ f =>
      simp only [parseStmntAfterAttribs] at hRun
      simp only [List.mem_cons, List.mem_singleton, List.not_mem_nil,
        or_false] at hIn
      rcases hIn with h | h | h | h | h
      · rw [h] at hRun
        exact parseForLoopStmnt_attribs _ _ _ _ hRun
      · rw [h] at hRun
        exact parseWhileLoopStmnt_attribs _ _ _ _ hRun
      · rw [h] at hRun
        exact parseDoWhileLoopStmnt_attribs _ _ _ _ hRun
      · rw [h] at hRun
        exact parseIfStmnt_attribs _ _ _ _ hRun
      · rw [h] at hRun
        exact parseSwitchStmnt_attribs _ _ _ _ hRun

/-- `ParseParameter` leaves the declarator of the parameter undecorated:
its `declStmntRef` stays null. -/
theorem parseParameter_refs (f : Nat) (s : PState)
    (r : VarDeclStmnt × PState) (h : parseParameter f s = .ok r) :
    ∀ vd ∈ r.1.varDecls, vd.declStmntRef = none := by
  cases f with
  | zero => simp [parseParameter] at h
  | succ f =>
    simp only [parseParameter, Bind.bind, Except.bind] at h
    repeat' split at h
    all_goals
      first
      | exact Except.noConfusion h
      | (simp only [Except.ok.injEq] at h
         subst h
         intro vd hvd
         simp only [VarDeclStmnt.varDecls, List.mem_singleton] at hvd
         subst hvd
         exact parseVarDecl_declStmntRef f _ _ (by assumption))

/-- C1 (amended): `declStmntRef` is populated exactly by the two decorated
productions: declarators of a `VarDeclStmnt` built by `ParseVarDeclStmnt`
or by the identifier-led variable-declaration branch point back to their
statement, while declarators inside parameter `VarDeclStmnt`s
(`ParseParameter`) and struct-typed variable declarations
(`ParseStructDeclOrVarDeclStmnt`) keep a null `declStmntRef`. -/
theorem C1_amended :
    (∀ f s r, parseVarDeclStmnt f s = Except.ok r →
      ∀ vd ∈ (r : VarDeclStmnt × PState).1.varDecls,
        vd.declStmntRef = some r.1.id)
  ∧ (∀ f s r vds, parseVarDeclOrAssignOrFunctionCallStmnt f s = Except.ok r →
      (r : Stmnt × PState).1 = .varDeclStmnt vds →
      ∀ vd ∈ vds.varDecls, vd.declStmntRef = some vds.id)
  ∧ (∀ f s r, parseParameter f s = Except.ok r →
      ∀ vd ∈ (r : VarDeclStmnt × PState).1.varDecls, vd.declStmntRef = none)
  ∧ (∀ f s r vds, parseStructDeclOrVarDeclStmnt f s = Except.ok r →
      (r : Stmnt × PState).1 = .varDeclStmnt vds →
      ∀ vd ∈ vds.varDecls, vd.declStmntRef = none) := by
  refine ⟨?_, ?_, ?_, ?_⟩
  · intro f s r h
    exact parseVarDeclStmnt_refs f s r h
  · intro f s r vds h hv
    exact parseVarDeclOrAssign_shape f s r h vds hv
  · intro f s r h
    exact parseParameter_refs f s r h
  · intro f s r vds h hv
    exact (parseStructDeclOrVarDeclStmnt_shape f s r h vds hv).1

/-- C1: counterexample to the claim as stated: `void f(float x);` parses
successfully, the parameter `VarDeclStmnt` has allocation id 0, and its
child declarator's `declStmntRef` is null instead of pointing to it. -/
theorem C1_counterexample :
    (progOfResult (parseProgram 50 { toks := c1Toks, nextId := 0 })).map
      firstParamInfo = some (some (0, [none])) := rfl

/-- C1: witness instantiating every part of the amended theorem on
concrete successful parses. -/
theorem C1_amended_witness :
    w1Vd.declStmntRef = some w1Out.id
  ∧ w2Vd.declStmntRef = some w2Out.id
  ∧ w3Vd.declStmntRef = none
  ∧ w4Vd.declStmntRef = none :=
  ⟨C1_amended.1 20 { toks := w1Toks, nextId := 0 }
      (w1Out, { toks := [], nextId := 1 }) rfl w1Vd
      (List.mem_singleton.mpr rfl),
   C1_amended.2.1 20 { toks := w2Toks, nextId := 0 }
      (.varDeclStmnt w2Out, { toks := [], nextId := 1 }) w2Out rfl rfl w2Vd
      (List.mem_singleton.mpr rfl),
   C1_amended.2.2.1 20 { toks := w3Toks, nextId := 0 }
      (w3Out, { toks := [], nextId := 1 }) rfl w3Vd
      (List.mem_singleton.mpr rfl),
   C1_amended.2.2.2 20 { toks := w4Toks, nextId := 0 }
      (.varDeclStmnt w4Out, { toks := [], nextId := 3 }) w4Out rfl rfl w4Vd
      (List.mem_singleton.mpr rfl)⟩

/-- C2 (amended): `ParseVarType` gives every `VarType` a `symbolRef` equal
to the address of its `structType` (null when there is no structure);
the struct-typed `VarType`s built by `ParseVarDeclStmnt` and
`ParseStructDeclOrVarDeclStmnt` keep a null `symbolRef` even though their
`structType` is set. -/
theorem C2_amended :
    (∀ f pv s r, parseVarType f pv s = Except.ok r →
      (r : VarType × PState).1.symbolRef = r.1.structType.map Structure.id)
  ∧ (∀ f s r, parseVarDeclStmnt f s = Except.ok r →
      (r : VarDeclStmnt × PState).1.varType.symbolRef = none)
  ∧ (∀ f s r vds, parseStructDeclOrVarDeclStmnt f s = Except.ok r →
      (r : Stmnt × PState).1 = .varDeclStmnt vds →
      vds.varType.symbolRef = none) := by
  refine ⟨?_, ?_, ?_⟩
  · intro f pv s r h
    exact parseVarType_symbolRef f pv s r h
  · intro f s r h
    exact parseVarDeclStmnt_symbolRef f s r h
  · intro f s r vds h hv
    exact (parseStructDeclOrVarDeclStmnt_shape f s r h vds hv).2

/-- C2: counterexample to the claim as stated:
`void f() { struct S { float a; } v; }` parses successfully and the body's
`VarType` has a non-null `structType` (allocation id 0) but a null
`symbolRef`. -/
theorem C2_counterexample :
    (progOfResult (parseProgram 50 { toks := c2Toks, nextId := 0 })).map
      (fun prog => (firstBodyVarType prog).map
        (fun vt => (vt.structType.map Structure.id, vt.symbolRef)))
    = some (some (some 0, none)) := rfl

/-- C2: witness instantiating every part of the amended theorem on
concrete successful parses. -/
theorem C2_amended_witness :
    (VarType.mk ⟨1, 1⟩ "" (some w4Struct) (some 0)).symbolRef
      = (VarType.mk ⟨1, 1⟩ "" (some w4Struct) (some 0)).structType.map
          Structure.id
  ∧ w1Out.varType.symbolRef = none
  ∧ w4Out.varType.symbolRef = none :=
  ⟨C2_amended.1 20 false { toks := w5Toks, nextId := 0 }
      (.mk ⟨1, 1⟩ "" (some w4Struct) (some 0), { toks := [], nextId := 2 })
      rfl,
   C2_amended.2.1 20 { toks := w1Toks, nextId := 0 }
      (w1Out, { toks := [], nextId := 1 }) rfl,
   C2_amended.2.2 20 { toks := w4Toks, nextId := 0 }
      (.varDeclStmnt w4Out, { toks := [], nextId := 3 }) w4Out rfl rfl⟩

/-- C3: evaluation of the code at the failing input: the statement
`struct { float a; } v;` is rejected, because `ParseStructure`
unconditionally requires an identifier after `struct`; the parse stops with
an unexpected-token error at the `{`. -/
theorem C3_code_eval :
    parseStmnt 50 { toks := c3Toks, nextId := 0 }
      = .error (.parseErr "syntax error (1:8) : unexpected token '\x7b'") := rfl

/-- C4: witness on the concrete statement `foo();`. -/
theorem C4_witness :
    c4Out.isFunctionCallStmnt = true ∧ c4Out.isVarDeclStmnt = false
      ∧ c4Out.callName = some c4Vi :=
  C4_theorem 10 { toks := c4Toks, nextId := 0 } c4Vi c4S1
    (c4Out, { toks := [], nextId := 0 }) rfl rfl rfl rfl

/-- C5: witness on the concrete expressions `(float)x` (cast) and `(x)+1`
(bracket). -/
theorem C5_witness :
    (parseBracketOrCastExpr 11 { toks := c5aToks, nextId := 0 }
      = Except.bind (parsePrimaryExpr 10 (advanceSt c5aS1))
          (fun x => .ok (.castExpr (headT (advanceSt c5aS1)).pos c5aInner x.1,
            x.2)))
  ∧ (parseBracketOrCastExpr 11 { toks := c5bToks, nextId := 0 }
      = .ok (.bracketExpr ⟨1, 4⟩ c5bInner, advanceSt c5bS1)) :=
  ⟨(C5_theorem 10 { toks := c5aToks, nextId := 0 } c5aInner c5aS1
      rfl rfl rfl).1 rfl,
   (C5_theorem 10 { toks := c5bToks, nextId := 0 } c5bInner c5bS1
      rfl rfl rfl).2 rfl⟩

/-- C6: `ParseSource` returns null on every failure: null on scan failure,
and on a parse error it returns null with the diagnostic delivered to the
attached logger (and still null, unlogged, when no logger is attached); on
success the program is returned and no error is logged. -/
theorem C6_theorem (fuel : Nat) (logAttached : Bool) (toks : List Token) :
    (parseSource fuel logAttached .failure = (none, []))
  ∧ (∀ e, parseProgram fuel { toks := toks, nextId := 0 } = .error e →
      parseSource fuel true (.success toks) = (none, [errToMsg e])
        ∧ parseSource fuel false (.success toks) = (none, []))
  ∧ (∀ p s2, parseProgram fuel { toks := toks, nextId := 0 } = .ok (p, s2) →
      parseSource fuel logAttached (.success toks) = (some p, [])) := by
  refine ⟨rfl, ?_, ?_⟩
  · intro e he
    constructor <;> simp [parseSource, he]
  · intro p s2 hp
    simp [parseSource, hp]

/-- C6: witness on a scan failure, a concrete parse error and a concrete
successful parse. -/
theorem C6_witness :
    parseSource 50 true .failure = (none, [])
  ∧ parseSource 50 true (.success c6Bad) = (none, [errToMsg c6Err])
  ∧ parseSource 50 false (.success c6Bad) = (none, [])
  ∧ parseSource 50 true (.success c1Toks) = (some c1Prog, []) :=
  ⟨(C6_theorem 50 true []).1,
   ((C6_theorem 50 true c6Bad).2.1 c6Err rfl).1,
   ((C6_theorem 50 true c6Bad).2.1 c6Err rfl).2,
   (C6_theorem 50 true c1Toks).2.2 c1Prog { toks := [], nextId := 1 } rfl⟩

/-- C7: witness on the concrete expression `a + b * c`. -/
theorem C7_witness :
    parseExpr 8 false none { toks := c7Toks, nextId := 0 }
      = .ok (.binaryExpr ⟨1, 3⟩ "+" c7A (.binaryExpr ⟨1, 7⟩ "*" c7B c7C),
          c7SC) :=
  C7_theorem 5 false { toks := c7Toks, nextId := 0 } c7SA c7SB c7SC
    c7A c7B c7C rfl rfl rfl rfl rfl (by decide) (by decide) (by decide)
    (by decide)

/-- C8: witness on the concrete parameter `in out float x`, whose input
modifier ends up `out`. -/
theorem C8_witness :
    parseParameter 11 { toks := c8Mods ++ c8Rest, nextId := 0 }
      = .ok (.mk ⟨1, 1⟩ 0 "out" [] [] c8Rv.1 [c8Rd.1], c8Rd.2) :=
  C8_theorem 10 c8Mods c8Rest 0 c8Rv c8Rd (by decide) (by decide)
    ⟨by decide, by decide, by decide⟩ rfl rfl

/-- C10: witness on `[unroll] return;` (attributes discarded) and
`[unroll] for(;;);` (attributes attached). -/
theorem C10_witness :
    (parseStmnt 11 { toks := c10Attr ++ c10RestA, nextId := 0 }
      = parseStmnt 11 { toks := c10RestA, nextId := 0 })
  ∧ c10ForOut.1.attribs = [c10Fc] :=
  ⟨(C10_theorem 10 c10Attr c10RestA 0 [c10Fc] rfl rfl (by decide)).1
      (by decide),
   (C10_theorem 10 c10Attr c10RestB 0 [c10Fc] rfl rfl (by decide)).2
      c10ForOut rfl (by decide)⟩

/-- The pack-offset visitor emits one line. -/
theorem visitPackOffset_len (d : Nat) (a : PackOffset) :
    (visitPackOffset d a).length = 1 := rfl

/-- Line count of the semantic visitor. -/
theorem visitVarSemantic_len (d : Nat) (a : VarSemantic) :
    (visitVarSemantic d a).length = countVisitedVarSemantic a := by
  rcases a with ⟨p, sem, reg, po⟩
  cases po <;> simp [visitVarSemantic, countVisitedVarSemantic, visitPackOffset]

/-- Line count over a semantic list. -/
theorem visitVarSemanticList_len (d : Nat) (l : List VarSemantic) :
    (visitVarSemanticList d l).length = countVisitedVarSemanticList l := by
  induction l with
  | nil => rfl
  | cons v vs ih =>
    simp [visitVarSemanticList, countVisitedVarSemanticList,
      visitVarSemantic_len d v, ih]

/-- Line count over buffer-declaration identifiers. -/
theorem visitBufferDeclIdentList_len (d : Nat) (l : List BufferDeclIdent) :
    (visitBufferDeclIdentList d l).length = l.length := by
  induction l with
  | nil => rfl
  | cons b bs ih =>
    simp [visitBufferDeclIdentList, visitBufferDeclIdent, ih]

mutual

/-- The expression visitor emits exactly one line per visited node. -/
theorem visitExpr_len (d : Nat) (e : Expr) :
    (visitExpr d e).length = countVisitedExpr e := by
  cases e with
  | listExpr p a b =>
    simp [visitExpr, countVisitedExpr, visitExpr_len (d+1) a,
      visitExpr_len (d+1) b] <;> omega
  | literalExpr p lit => rfl
  | typeNameExpr p tn => rfl
  | ternaryExpr p c i e =>
    simp [visitExpr, countVisitedExpr, visitExpr_len (d+1) c,
      visitExpr_len (d+1) i, visitExpr_len (d+1) e] <;> omega
  | binaryExpr p op l r =>
    simp [visitExpr, countVisitedExpr, visitExpr_len (d+1) l,
      visitExpr_len (d+1) r] <;> omega
  | unaryExpr p op e =>
    simp [visitExpr, countVisitedExpr, visitExpr_len (d+1) e] <;> omega
  | postUnaryExpr p op e =>
    simp [visitExpr, countVisitedExpr, visitExpr_len (d+1) e] <;> omega
  | functionCallExpr p call =>
    simp [visitExpr, countVisitedExpr, visitFunctionCall_len (d+1) call]
      <;> omega
  | bracketExpr p e =>
    simp [visitExpr, countVisitedExpr, visitExpr_len (d+1) e] <;> omega
  | castExpr p t e =>
    simp [visitExpr, countVisitedExpr, visitExpr_len (d+1) t] <;> omega
  | varAccessExpr p vi op ae =>
    simp [visitExpr, countVisitedExpr, visitVarIdent_len (d+1) vi,
      visitOptExpr_len (d+1) ae] <;> omega
  | initializerExpr p es =>
    simp [visitExpr, countVisitedExpr, visitExprList_len (d+1) es] <;> omega

/-- Line count over an optional expression. -/
theorem visitOptExpr_len (d : Nat) (e : Option Expr) :
    (visitOptExpr d e).length = countVisitedOptExpr e := by
  cases e with
  | none => rfl
  | some e => simp [visitOptExpr, countVisitedOptExpr, visitExpr_len d e]

/-- Line count over an expression list. -/
theorem visitExprList_len (d : Nat) (l : List Expr) :
    (visitExprList d l).length = countVisitedExprList l := by
  cases l with
  | nil => rfl
  | cons e es =>
    simp [visitExprList, countVisitedExprList, visitExpr_len d e,
      visitExprList_len d es]

/-- Line count of the identifier visitor. -/
theorem visitVarIdent_len (d : Nat) (vi : VarIdent) :
    (visitVarIdent d vi).length = countVisitedVarIdent vi := by
  cases vi with
  | mk p idn idxs nxt =>
    simp [visitVarIdent, countVisitedVarIdent, visitExprList_len (d+1) idxs,
      visitOptVarIdent_len (d+1) nxt] <;> omega

/-- Line count over an optional identifier. -/
theorem visitOptVarIdent_len (d : Nat) (vi : Option VarIdent) :
    (visitOptVarIdent d vi).length = countVisitedOptVarIdent vi := by
  cases vi with
  | none => rfl
  | some vi =>
    simp [visitOptVarIdent, countVisitedOptVarIdent, visitVarIdent_len d vi]

/-- Line count of the function-call visitor. -/
theorem visitFunctionCall_len (d : Nat) (c : FunctionCall) :
    (visitFunctionCall d c).length = countVisitedFunctionCall c := by
  cases c with
  | mk p nm args =>
    simp [visitFunctionCall, countVisitedFunctionCall,
      visitVarIdent_len (d+1) nm, visitExprList_len (d+1) args] <;> omega

/-- Line count over a function-call list. -/
theorem visitFunctionCallList_len (d : Nat) (l : List FunctionCall) :
    (visitFunctionCallList d l).length = countVisitedFunctionCallList l := by
  cases l with
  | nil => rfl
  | cons c cs =>
    simp [visitFunctionCallList, countVisitedFunctionCallList,
      visitFunctionCall_len d c, visitFunctionCallList_len d cs]

/-- Line count of the declarator visitor. -/
theorem visitVarDecl_len (d : Nat) (v : VarDecl) :
    (visitVarDecl d v).length = countVisitedVarDecl v := by
  cases v with
  | mk p nm dims sems ini r =>
    simp [visitVarDecl, countVisitedVarDecl, visitExprList_len (d+1) dims,
      visitVarSemanticList_len (d+1) sems, visitOptExpr_len (d+1) ini]
      <;> omega

/-- Line count over a declarator list. -/
theorem visitVarDeclList_len (d : Nat) (l : List VarDecl) :
    (visitVarDeclList d l).length = countVisitedVarDeclList l := by
  cases l with
  | nil => rfl
  | cons v vs =>
    simp [visitVarDeclList, countVisitedVarDeclList, visitVarDecl_len d v,
      visitVarDeclList_len d vs]

/-- Line count of the structure visitor. -/
theorem visitStructure_len (d : Nat) (st : Structure) :
    (visitStructure d st).length = countVisitedStructure st := by
  cases st with
  | mk p i nm members =>
    simp [visitStructure, countVisitedStructure,
      visitVarDeclStmntList2_len (d+1) members] <;> omega

/-- Line count of the variable-declaration-statement visitor. -/
theorem visitVarDeclStmnt_len (d : Nat) (v : VarDeclStmnt) :
    (visitVarDeclStmnt d v).length = countVisitedVarDeclStmnt v := by
  cases v with
  | mk p i im sm tm vt decls =>
    simp [visitVarDeclStmnt, countVisitedVarDeclStmnt,
      visitVarDeclList_len (d+1) decls] <;> omega

/-- Line count over a variable-declaration-statement list. -/
theorem visitVarDeclStmntList2_len (d : Nat) (l : List VarDeclStmnt) :
    (visitVarDeclStmntList2 d l).length = countVisitedVarDeclStmntList l := by
  cases l with
  | nil => rfl
  | cons v vs =>
    simp [visitVarDeclStmntList2, countVisitedVarDeclStmntList,
      visitVarDeclStmnt_len d v, visitVarDeclStmntList2_len d vs]

/-- The statement visitor emits exactly one line per visited node. -/
theorem visitStmnt_len (d : Nat) (st : Stmnt) :
    (visitStmnt d st).length = countVisitedStmnt st := by
  cases st with
  | nullStmnt p => rfl
  | directiveStmnt p line => rfl
  | codeBlockStmnt p cb =>
    simp [visitStmnt, countVisitedStmnt, visitCodeBlock_len (d+1) cb] <;> omega
  | forLoopStmnt p attribs ini cond iter body =>
    simp [visitStmnt, countVisitedStmnt, visitStmnt_len (d+1) ini,
      visitOptExpr_len (d+1) cond, visitOptExpr_len (d+1) iter,
      visitStmnt_len (d+1) body] <;> omega
  | whileLoopStmnt p attribs cond body =>
    simp [visitStmnt, countVisitedStmnt, visitExpr_len (d+1) cond,
      visitStmnt_len (d+1) body] <;> omega
  | doWhileLoopStmnt p attribs body cond =>
    simp [visitStmnt, countVisitedStmnt, visitStmnt_len (d+1) body,
      visitExpr_len (d+1) cond] <;> omega
  | ifStmnt p attribs cond body els =>
    simp [visitStmnt, countVisitedStmnt, visitExpr_len (d+1) cond,
      visitStmnt_len (d+1) body, visitOptElseStmnt_len (d+1) els] <;> omega
  | switchStmnt p attribs sel cases2 =>
    simp [visitStmnt, countVisitedStmnt, visitExpr_len (d+1) sel,
      visitSwitchCaseList_len (d+1) cases2] <;> omega
  | varDeclStmnt v =>
    simp [visitStmnt, countVisitedStmnt, visitVarDeclStmnt_len d v]
  | assignStmnt p vi op e =>
    simp [visitStmnt, countVisitedStmnt, visitExpr_len (d+1) e] <;> omega
  | exprStmnt p e =>
    simp [visitStmnt, countVisitedStmnt, visitExpr_len (d+1) e] <;> omega
  | functionCallStmnt p call =>
    simp [visitStmnt, countVisitedStmnt, visitFunctionCall_len (d+1) call]
      <;> omega
  | returnStmnt p e =>
    simp [visitStmnt, countVisitedStmnt, visitOptExpr_len (d+1) e] <;> omega
  | structDeclStmnt p st =>
    simp [visitStmnt, countVisitedStmnt, visitStructure_len (d+1) st] <;> omega
  | ctrlTransferStmnt p instr => rfl

/-- Line count of the else visitor. -/
theorem visitElseStmnt_len (d : Nat) (e : ElseStmnt) :
    (visitElseStmnt d e).length = countVisitedElseStmnt e := by
  cases e with
  | mk p body =>
    simp [visitElseStmnt, countVisitedElseStmnt, visitStmnt_len (d+1) body]
      <;> omega

/-- Line count over an optional else branch. -/
theorem visitOptElseStmnt_len (d : Nat) (e : Option ElseStmnt) :
    (visitOptElseStmnt d e).length = countVisitedOptElseStmnt e := by
  cases e with
  | none => rfl
  | some e =>
    simp [visitOptElseStmnt, countVisitedOptElseStmnt, visitElseStmnt_len d e]

/-- Line count of the switch-case visitor. -/
theorem visitSwitchCase_len (d : Nat) (c : SwitchCase) :
    (visitSwitchCase d c).length = countVisitedSwitchCase c := by
  cases c with
  | mk p e stmnts =>
    simp [visitSwitchCase, countVisitedSwitchCase,
      visitStmntList_len (d+1) stmnts] <;> omega

/-- Line count over a switch-case list. -/
theorem visitSwitchCaseList_len (d : Nat) (l : List SwitchCase) :
    (visitSwitchCaseList d l).length = countVisitedSwitchCaseList l := by
  cases l with
  | nil => rfl
  | cons c cs =>
    simp [visitSwitchCaseList, countVisitedSwitchCaseList,
      visitSwitchCase_len d c, visitSwitchCaseList_len d cs]

/-- Line count over a statement list. -/
theorem visitStmntList_len (d : Nat) (l : List Stmnt) :
    (visitStmntList d l).length = countVisitedStmntList l := by
  cases l with
  | nil => rfl
  | cons st sts =>
    simp [visitStmntList, countVisitedStmntList, visitStmnt_len d st,
      visitStmntList_len d sts]

/-- Line count of the code-block visitor. -/
theorem visitCodeBlock_len (d : Nat) (cb : CodeBlock) :
    (visitCodeBlock d cb).length = countVisitedCodeBlock cb := by
  cases cb with
  | mk p stmnts =>
    simp [visitCodeBlock, countVisitedCodeBlock,
      visitStmntList_len (d+1) stmnts] <;> omega

/-- Line count over an optional code block. -/
theorem visitOptCodeBlock_len (d : Nat) (cb : Option CodeBlock) :
    (visitOptCodeBlock d cb).length = countVisitedOptCodeBlock cb := by
  cases cb with
  | none => rfl
  | some cb =>
    simp [visitOptCodeBlock, countVisitedOptCodeBlock, visitCodeBlock_len d cb]

/-- The global-declaration visitor emits exactly one line per visited
node. -/
theorem visitGlobalDecl_len (d : Nat) (g : GlobalDecl) :
    (visitGlobalDecl d g).length = countVisitedGlobalDecl g := by
  cases g with
  | functionDecl p attribs retTy nm params sem cb =>
    simp [visitGlobalDecl, countVisitedGlobalDecl,
      visitFunctionCallList_len (d+1) attribs, visitOptCodeBlock_len (d+1) cb]
      <;> omega
  | uniformBufferDecl p bt nm reg members =>
    simp [visitGlobalDecl, countVisitedGlobalDecl,
      visitVarDeclStmntList2_len (d+1) members] <;> omega
  | textureDecl p tt ct names =>
    simp [visitGlobalDecl, countVisitedGlobalDecl,
      visitBufferDeclIdentList_len (d+1) names] <;> omega
  | samplerDecl p st names =>
    simp [visitGlobalDecl, countVisitedGlobalDecl,
      visitBufferDeclIdentList_len (d+1) names] <;> omega
  | structDecl p st =>
    simp [visitGlobalDecl, countVisitedGlobalDecl,
      visitStructure_len (d+1) st] <;> omega
  | directiveDecl p line => rfl

/-- Line count over a global-declaration list. -/
theorem visitGlobalDeclList_len (d : Nat) (l : List GlobalDecl) :
    (visitGlobalDeclList d l).length = countVisitedGlobalDeclList l := by
  cases l with
  | nil => rfl
  | cons g gs =>
    simp [visitGlobalDeclList, countVisitedGlobalDeclList,
      visitGlobalDecl_len d g, visitGlobalDeclList_len d gs]

end

/-- C9: counterexample to the claim as stated: on the AST of
`void f(float x);` the printer emits fewer lines than there are reachable
nodes — the function's return type and parameter subtree are never
visited. -/
theorem C9_counterexample :
    (dumpAST c1Prog).length < countNodesProgram c1Prog := by decide

/-- C9 (amended): the printer emits exactly one log line per node it
visits (the line count equals the visited-node count, and the root line is
`Program (L:C)` at indentation 0); each visited node's block starts with
its own line at its nesting depth. -/
theorem C9_amended :
    (∀ p : Program, (dumpAST p).length = countVisitedProgram p
      ∧ (dumpAST p).head? = some (0, printMsg "Program" p.pos ""))
  ∧ (∀ d g, ((visitGlobalDecl d g).map Prod.fst).head? = some d)
  ∧ (∀ d st, ((visitStmnt d st).map Prod.fst).head? = some d)
  ∧ (∀ d e, ((visitExpr d e).map Prod.fst).head? = some d) := by
  refine ⟨?_, ?_, ?_, ?_⟩
  · intro p
    refine ⟨?_, rfl⟩
    simp [dumpAST, countVisitedProgram,
      visitGlobalDeclList_len 1 p.globalDecls] <;> omega
  · intro d g
    cases g <;> rfl
  · intro d st
    cases st <;> try rfl
    rename_i v
    cases v <;> rfl
  · intro d e
    cases e <;> rfl

end HT
